import Mathlib

/-!
Shallow embedding of the crowbar-master-backend credit system.

The persistent store (Supabase) is modelled as an explicit record of four
tables (users, credits_ledger, credits, referrals); each controller function
is translated into a pure state-passing function over that record.  USD
amounts are rationals (Stripe delivers integer minor units, so `cents / 100`
is exact); timestamps are epoch milliseconds.  Storage writes that the code
lets fail are parameterised by an explicit outcome argument where a claim
depends on the failure path.
-/

namespace Crowbar

/-- Epoch milliseconds. -/
abbrev Time := Nat

/-- Milliseconds per day, used by the UTC-day window helpers. -/
def dayMs : Nat := 86400000

/-- One row of the `users` table.  Field defaults model the column defaults
a bare upsert leaves in place. -/
structure User where
  email : String
  total_credits : Int := 0
  total_spent : Rat := 0
  membership_tier : Option String := none
  membership_activated_at : Option Time := none
  entries_available : Option Int := none
  credit_multiplier : Option Rat := none
  access_mode : Option String := none
  limited_partner : Option String := none
  limited_paid_amount : Option Rat := none
  upgrade_balance_amount : Option Rat := none
  crowbar_access : Bool := false
  full_access : Bool := false
  access_talentkonnect : Bool := false
  access_careduel : Bool := false
  access_ecoworldbuy : Bool := false
  elite_prep_access : Bool := false
  vip_onboarding : Bool := false
  marketplace_priority : Bool := false
  refund_on_event_end : Option Int := none
  priority_challenge : Bool := false
  pro_welcome_perk : Bool := false
  referral_code : Option String := none
  referred_by : Option String := none
  auto_upgraded_at : Option Time := none
  updated_at : Option Time := none
  deriving Repr, DecidableEq

/-- One append-only row of the `credits_ledger` table. -/
structure LedgerRow where
  email : String
  delta : Int
  reason : String
  origin_site : String
  stripe_event_id : Option String := none
  stripe_session_id : Option String := none
  amount_usd : Option Rat := none
  created_at : Time
  deriving Repr, DecidableEq

/-- One row of the legacy `credits` history table. -/
structure CreditRow where
  email : String
  amount : Int
  origin_site : String
  stripe_event_id : Option String := none
  stripe_session_id : Option String := none
  eligible_global_race : Bool := false
  legal_accept : Bool := false
  created_at : Time
  deriving Repr, DecidableEq

/-- One row of the `referrals` table. -/
structure Referral where
  referrer_email : String
  referred_email : String
  referral_code : String
  deriving Repr, DecidableEq

/-- The persistent state: the four tables the controllers touch. -/
structure DB where
  users : List User
  ledger : List LedgerRow
  credits : List CreditRow
  referrals : List Referral
  deriving Repr, DecidableEq

/-- First users row with this email (Supabase `select ... eq(email)` with
`single`/`maybeSingle`). -/
def findU (l : List User) (e : String) : Option User :=
  match l with
  | [] => none
  | u :: t => if u.email == e then some u else findU t e

/-- First users row carrying this referral code. -/
def findUByCode (l : List User) (c : String) : Option User :=
  match l with
  | [] => none
  | u :: t => if u.referral_code == some c then some u else findUByCode t c

/-- First referrals row for this referred email. -/
def findRef (l : List Referral) (e : String) : Option Referral :=
  match l with
  | [] => none
  | r :: t => if r.referred_email == e then some r else findRef t e

/-- First ledger row recorded for this source event id. -/
def findLedgerByEvent (l : List LedgerRow) (e : String) : Option LedgerRow :=
  match l with
  | [] => none
  | r :: t => if r.stripe_event_id == some e then some r else findLedgerByEvent t e

/-- Supabase `select ... eq(email)` on the users table. -/
def findUser (db : DB) (email : String) : Option User :=
  findU db.users email

/-- Supabase `update ... eq(email)` on the users table: rewrites every row
whose email matches, leaves the rest (a no-op when no row matches). -/
def updUser (db : DB) (email : String) (f : User → User) : DB :=
  { db with users := db.users.map (fun u => if u.email == email then f u else u) }

/-- Supabase `upsert(..., onConflict := email)`: update the listed columns on
the existing row, or insert a fresh row whose unlisted columns take the
column defaults. -/
def upsertUser (db : DB) (email : String) (f : User → User) : DB :=
  match findUser db email with
  | some _ => updUser db email f
  | none   => { db with users := db.users ++ [f { email := email }] }

/-- `ensureUser` (shared helper, identical in every controller file):
upsert-by-email with no column changes. -/
def ensureUser (db : DB) (email : String) : DB :=
  upsertUser db email id

/-- JS `String.prototype.toLowerCase` (ASCII case map, character-wise),
written over the character list so that concrete evaluation reduces. -/
def jsToLower (s : String) : String :=
  String.mk (s.data.map Char.toLower)

/-- JS `String.prototype.trim`, written over the character list so that
concrete evaluation reduces. -/
def jsTrim (s : String) : String :=
  String.mk (((s.data.dropWhile Char.isWhitespace).reverse.dropWhile
    Char.isWhitespace).reverse)

/-- JS `String.prototype.includes` for a single character. -/
def jsIncludes (s : String) (c : Char) : Bool :=
  s.data.contains c

/-- JS `(e || '').trim().toLowerCase()` as in `normEmail`. -/
def normEmail (e : Option String) : String :=
  jsToLower (jsTrim (e.getD ""))

/-- JS `a || b` for optional strings (empty string is falsy). -/
def jsOrOptStr (a b : Option String) : Option String :=
  match a with
  | some s => if s = "" then b else some s
  | none => b

/-- JS `a || dflt` collapsing to a plain string. -/
def jsOrStr (a : Option String) (dflt : String) : String :=
  match a with
  | some s => if s = "" then dflt else s
  | none => dflt

/-- JS falsiness of a possibly-absent string field. -/
def jsFalsyStr (s : Option String) : Bool :=
  s.isNone || s == some ""

/-- Digits-to-number accumulator for `parseIntJs`. -/
def digitsToNat (ds : List Char) : Nat :=
  ds.foldl (fun n c => n * 10 + (c.toNat - 48)) 0

/-- JS `parseInt(s, 10)`: trim, optional sign, longest digit run; `none`
models `NaN`. -/
def parseIntJs (s : String) : Option Int :=
  let chars := (jsTrim s).data
  let signed : Int × List Char :=
    match chars with
    | '-' :: rest => (-1, rest)
    | '+' :: rest => (1, rest)
    | _ => (1, chars)
  let ds := signed.2.takeWhile Char.isDigit
  if ds.isEmpty then none
  else some (signed.1 * (digitsToNat ds : Int))

/-- JS `Math.round` on an exact rational: floor of `q + 1/2`
(half rounds toward positive infinity). -/
def jsRound (q : Rat) : Int :=
  ⌊q + 1/2⌋

/-- `bumpUserCredits(email, delta)` as written (identically up to error
logging) in the credits, bridge and gate controllers: ensure the row, read
`total_credits` (missing treated as 0), write back `current + delta` and
stamp `updated_at`.  Returns the new total together with the new state. -/
def bumpUserCredits (db : DB) (email : String) (delta : Int) (now : Time) : Int × DB :=
  let db1 := ensureUser db email
  let curr := ((findUser db1 email).map (fun u => u.total_credits)).getD 0
  let newTotal := curr + delta
  (newTotal, updUser db1 email (fun u => { u with total_credits := newTotal, updated_at := some now }))

/-- Request body of `POST /credits/earn`. -/
structure EarnReq where
  email : Option String := none
  amount : Option String := none
  origin : Option String := none

/-- Response summary of `POST /credits/earn`. -/
inductive EarnRes where
  | missingFields
  | badAmount
  | ok (delta : Int) (balance : Int)
  deriving Repr, DecidableEq

/-- `earnCredits` (credits controller): validate presence, `parseInt` the
amount (rejecting `NaN`), insert a `credits` history row, insert a
`credits_ledger` row with reason `api.earn`, then bump `total_credits`.
No sign restriction is applied to the parsed amount. -/
def earnCredits (req : EarnReq) (now : Time) (db : DB) : EarnRes × DB :=
  if jsFalsyStr req.email || req.amount.isNone || jsFalsyStr req.origin then
    (.missingFields, db)
  else
    let email := req.email.getD ""
    let origin := req.origin.getD ""
    match parseIntJs (req.amount.getD "") with
    | none => (.badAmount, db)
    | some delta =>
      let eligible := origin == "access_pass"
      let db1 := { db with credits := db.credits ++
        [({ email := email, amount := delta, origin_site := origin,
            eligible_global_race := eligible, legal_accept := false, created_at := now } : CreditRow)] }
      let db2 := { db1 with ledger := db1.ledger ++
        [({ email := email, delta := delta, reason := "api.earn",
            origin_site := origin, created_at := now } : LedgerRow)] }
      let (newTotal, db3) := bumpUserCredits db2 email delta now
      (.ok delta newTotal, db3)

/-! ### Gate flow (gate controller) -/

/-- `PARTNER_MAP`: partner origin to redirect URL. -/
def PARTNER_MAP (origin : String) : Option String :=
  if origin = "talentkonnect" then some "https://talentkonnect-redesign.vercel.app"
  else if origin = "careduel" then some "https://careduel-redesign.vercel.app"
  else if origin = "ecoworldbuy" then some "https://ecoworldbuy-redesign.vercel.app"
  else none

/-- `CREDIT_MAP`: fixed credit amount per product origin. -/
def CREDIT_MAP (origin : String) : Option Int :=
  if origin = "access_pass" then some 49
  else if origin = "talentkonnect" then some 7
  else if origin = "careduel" then some 3
  else if origin = "ecoworldbuy" then some 7
  else none

/-- `hasAccessPass`: a legally-accepted access-pass row exists in the
`credits` history table for this email. -/
def hasAccessPass (db : DB) (email : String) : Bool :=
  db.credits.any (fun c =>
    c.email == email && c.origin_site == "access_pass" && c.legal_accept)

/-- `startOfUtcDay`: midnight of the UTC day containing `t`. -/
def startOfUtcDay (t : Time) : Time :=
  t / dayMs * dayMs

/-- `endOfUtcDay`: last millisecond of the UTC day containing `t`. -/
def endOfUtcDay (t : Time) : Time :=
  startOfUtcDay t + (dayMs - 1)

/-- `partnerRewardAlreadyGivenToday`: does an `action.rewarded` ledger row
for this email and partner exist within the current UTC day?  `qerr` models
the storage read failing, which the code converts into `true`
(fail-closed). -/
def partnerRewardAlreadyGivenToday (email origin : String) (now : Time)
    (qerr : Bool) (db : DB) : Bool :=
  if qerr then true
  else db.ledger.any (fun r =>
    r.email == email && r.origin_site == origin && r.reason == "action.rewarded" &&
    decide (startOfUtcDay now ≤ r.created_at) && decide (r.created_at ≤ endOfUtcDay now))

/-- Result of `awardPartnerOncePerDay`. -/
structure AwardRes where
  awarded : Bool
  credits : Int
  deriving Repr, DecidableEq

/-- `awardPartnerOncePerDay`: award the partner credit unless the partner
has no positive credit amount or the once-per-UTC-day guard fires; on award,
insert a legacy `credits` row and an `action.rewarded` ledger row, then bump
`total_credits`. -/
def awardPartnerOncePerDay (email origin : String) (now : Time)
    (qerr : Bool) (db : DB) : AwardRes × DB :=
  let credits := (CREDIT_MAP origin).getD 0
  if credits ≤ 0 then (⟨false, 0⟩, db)
  else if partnerRewardAlreadyGivenToday email origin now qerr db then (⟨false, 0⟩, db)
  else
    let db1 := { db with credits := db.credits ++
      [({ email := email, amount := credits, origin_site := origin,
          eligible_global_race := false, legal_accept := true, created_at := now } : CreditRow)] }
    let db2 := { db1 with ledger := db1.ledger ++
      [({ email := email, delta := credits, reason := "action.rewarded",
          origin_site := origin, created_at := now } : LedgerRow)] }
    let db3 := (bumpUserCredits db2 email credits now).2
    (⟨true, credits⟩, db3)

/-- Error tags of `POST /gate/start`. -/
inductive GateErr where
  | missingParams
  | invalidOrigin
  | legalRequired
  deriving Repr, DecidableEq

/-- Response summary of `POST /gate/start`.  The checkout branch calls the
external payment gateway; it is summarised by `need_payment = some true`
with no redirect URL. -/
structure GateStartRes where
  success : Bool
  need_payment : Option Bool := none
  redirect_url : Option String := none
  error : Option GateErr := none
  deriving Repr, DecidableEq

/-- `startGate`: validate email/origin, then either grant the once-per-day
partner reward and redirect (pass holders), or require legal acceptance and
create a payment session. -/
def startGate (email origin legal_accept : Option String) (now : Time)
    (qerr : Bool) (db : DB) : GateStartRes × DB :=
  if jsFalsyStr email || jsFalsyStr origin then
    ({ success := false, error := some .missingParams }, db)
  else
    let e := email.getD ""
    let o := origin.getD ""
    match PARTNER_MAP o with
    | none => ({ success := false, error := some .invalidOrigin }, db)
    | some redirect =>
      if hasAccessPass db e then
        let db1 := (awardPartnerOncePerDay e o now qerr db).2
        ({ success := true, need_payment := some false, redirect_url := some redirect }, db1)
      else if ¬(jsToLower (legal_accept.getD "") = "true") then
        ({ success := false, error := some .legalRequired }, db)
      else
        ({ success := true, need_payment := some true }, db)

/-! ### Auto-upgrade rule (bridge controller) -/

/-- Rolling 30-day spend: sum of `amount_usd` over the ledger rows of this
email whose `created_at` lies in the window and whose `amount_usd` is not
null. -/
def rolling30 (db : DB) (email : String) (now : Time) : Rat :=
  let start := now - 30 * dayMs
  let rows := db.ledger.filter (fun r =>
    r.email == email && decide (start ≤ r.created_at) && decide (r.created_at ≤ now) &&
    r.amount_usd.isSome)
  rows.foldl (fun a r => a + (r.amount_usd.getD 0)) 0

/-- Effective spend: max of the rolling 30-day ledger sum and the all-time
`total_spent`. -/
def effectiveSpend (db : DB) (email : String) (now : Time) : Rat :=
  max (rolling30 db email now) (((findUser db email).map (fun u => u.total_spent)).getD 0)

/-- `autoUpgradeIfEligible`: below the threshold or already fully upgraded,
do nothing; otherwise grant the one-time +49 bonus unless an
`auto_upgrade_bonus` ledger row already exists, then set `full_access` and
stamp `auto_upgraded_at`. -/
def autoUpgradeIfEligible (email : String) (now : Time) (db : DB) : DB :=
  let userRow := findUser db email
  if ((userRow.map (fun u => u.full_access)).getD false)
      && ((userRow.bind (fun u => u.auto_upgraded_at)).isSome) then db
  else if effectiveSpend db email now < 99 then db
  else
    let prior := db.ledger.any (fun r =>
      r.email == email && r.reason == "auto_upgrade_bonus")
    let db1 :=
      if prior then db
      else
        let dbL := { db with ledger := db.ledger ++
          [({ email := email, delta := 49, reason := "auto_upgrade_bonus",
              origin_site := "bridge_auto_upgrade", amount_usd := none,
              created_at := now } : LedgerRow)] }
        (bumpUserCredits dbL email 49 now).2
    updUser db1 email (fun u =>
      { u with full_access := true, auto_upgraded_at := some now, updated_at := some now })

/-! ### Referral application (credits controller, latest version) -/

/-- Request body of `POST /credits/apply_referral_code`. -/
structure ApplyRefReq where
  referred_email : Option String := none
  referral_code : Option String := none

/-- Response summary of `POST /credits/apply_referral_code`. -/
inductive ApplyRefRes where
  | invalidEmail
  | missingCode
  | invalidCode
  | selfReferral
  | alreadyUsed
  | ok
  deriving Repr, DecidableEq

/-- `applyReferralCode` (latest credits-controller version): look up the
referrer by code, reject self-referral and an already-referred email, then
record the referral row, stamp `referred_by` on the referred user, add +25
to the referrer and append one `referral_signup` ledger row. -/
def applyReferralCode (req : ApplyRefReq) (now : Time) (db : DB) : ApplyRefRes × DB :=
  let email := jsToLower (req.referred_email.getD "")
  let code := jsTrim (req.referral_code.getD "")
  if email = "" ∨ ¬(jsIncludes email '@') then (.invalidEmail, db)
  else if code = "" then (.missingCode, db)
  else
    match findUByCode db.users code with
    | none => (.invalidCode, db)
    | some referrer =>
      if jsToLower referrer.email = email then (.selfReferral, db)
      else
        match findRef db.referrals email with
        | some _ => (.alreadyUsed, db)
        | none =>
          let refEmail := jsToLower referrer.email
          let db1 := { db with referrals := db.referrals ++
            [({ referrer_email := refEmail, referred_email := email,
                referral_code := code } : Referral)] }
          let db2 := updUser db1 email (fun u => { u with referred_by := some refEmail })
          let prevCredits := ((findUser db2 refEmail).map (fun u => u.total_credits)).getD 0
          let db3 := updUser db2 refEmail (fun u => { u with total_credits := prevCredits + 25 })
          let db4 := { db3 with ledger := db3.ledger ++
            [({ email := refEmail, delta := 25, reason := "referral_signup",
                origin_site := "crowbar", created_at := now } : LedgerRow)] }
          (.ok, db4)

/-! ### Payment reconciliation (stripe controller, `handleSuccessfulPayment`) -/

/-- Outcome of the single fallible `credits_ledger` insert inside
`handleSuccessfulPayment`: success, a Postgres 23505 unique violation
(logged and ignored by the code), or any other storage error (re-thrown). -/
inductive LOutcome where
  | ok
  | dup
  | err
  deriving Repr, DecidableEq

/-- Checkout-session metadata fields read by the webhook reconciliation. -/
structure SessionMeta where
  user_email : Option String := none
  payment_type : Option String := none
  partner_key : Option String := none
  limited_paid_amount : Option Int := none
  membership_tier : Option String := none
  deriving Repr, DecidableEq

/-- The checkout-session object delivered by the payment gateway.
`amount_total` is in integer minor units (cents); `none` models a
non-finite value, which the code replaces by 0. -/
structure Session where
  id : Option String := none
  customer_email : Option String := none
  amount_total : Option Int := none
  metadata : SessionMeta := {}
  deriving Repr, DecidableEq

/-- Error tags of `handleSuccessfulPayment` (catch-all result messages). -/
inductive HSPErr where
  | noEmail
  | missingPartnerKey
  | invalidLimitedPaidAmount
  | upgradeOnlyForLimited
  | noBalanceRemaining
  | balanceMismatch
  | ledgerInsertFailed
  deriving Repr, DecidableEq

/-- Result of `handleSuccessfulPayment`. -/
structure HSPResult where
  success : Bool
  alreadyProcessed : Bool := false
  error : Option HSPErr := none
  deltaCredits : Option Int := none
  deriving Repr, DecidableEq

/-- The per-tier benefits table of the lifetime-membership flow. -/
structure TierBenefits where
  credits : Int
  entries : Int
  credit_multiplier : Rat
  membership_tier : String
  refund_on_event_end : Option Int := none
  deriving Repr, DecidableEq

/-- `tierBenefits` lookup: the four defined tiers, `none` otherwise. -/
def tierBenefits? (tier : String) : Option TierBenefits :=
  if tier = "discount19" then some ⟨49, 1, 1, "discount19", none⟩
  else if tier = "basic" then some ⟨49, 1, 1, "basic", none⟩
  else if tier = "pro" then some ⟨49, 3, 3/2, "pro", none⟩
  else if tier = "elite" then some ⟨500, 10, 3/2, "elite", some 250⟩
  else none

/-- `bumpUserSpend` (stripe-controller version): ensure the row, read
`total_spent`, write back `current + deltaUsd` and stamp `updated_at`. -/
def bumpUserSpend (db : DB) (email : String) (deltaUsd : Rat) (now : Time) : DB :=
  let db1 := ensureUser db email
  let curr := ((findUser db1 email).map (fun u => u.total_spent)).getD 0
  updUser db1 email (fun u => { u with total_spent := curr + deltaUsd, updated_at := some now })

/-- `ensureReferralCodeForUser` wrapped in the try/catch that every call
site uses: a missing user row throws and is swallowed; an existing code is
kept; otherwise persist the freshly generated code (`codeSupply` stands for
the random-generation oracle). -/
def ensureReferralCodeTry (db : DB) (email : String) (codeSupply : String) : DB :=
  match findUser db (jsToLower email) with
  | none => db
  | some u =>
    if u.referral_code.isSome then db
    else updUser db (jsToLower email) (fun v => { v with referral_code := some codeSupply })

/-- The event-id idempotency gate: a truthy source event id for which some
ledger row already records `stripe_event_id`. -/
def eventSeen (db : DB) (sourceEventId : Option String) : Bool :=
  match sourceEventId with
  | some e => if e = "" then false
              else (findLedgerByEvent db.ledger e).isSome
  | none => false

/-- CSV split of the stored `limited_partner` list, as the code performs it:
trim, split on commas, trim entries, drop empties. -/
def csvSplitClean (s : String) : List String :=
  let p := jsTrim s
  if p = "" then [] else ((p.splitOn ",").map jsTrim).filter (fun x => x ≠ "")

/-- First-occurrence deduplication (`Array.from(new Set(...))`). -/
def dedupKeepFirst (l : List String) : List String :=
  l.foldl (fun acc s => if s ∈ acc then acc else acc ++ [s]) []

/-- The `limited_pass` branch of `handleSuccessfulPayment`: record partial
payment progress (ledger delta 0), merge the partner into the CSV partner
set, accumulate `limited_paid_amount` and the remaining upgrade balance. -/
def limitedPassFlow (meta : SessionMeta) (email : String) (sessionId : Option String)
    (usd : Rat) (sourceEventId : Option String) (lout : LOutcome)
    (codeSupply : String) (now : Time) (db : DB) : HSPResult × DB :=
  let partnerKey := meta.partner_key.getD ""
  if partnerKey = "" then ({ success := false, error := some .missingPartnerKey }, db)
  else
    let paidAmount := meta.limited_paid_amount.getD 0
    if ¬(paidAmount = 7 ∨ paidAmount = 9 ∨ paidAmount = 12) then
      ({ success := false, error := some .invalidLimitedPaidAmount }, db)
    else
      let db1 := ensureUser db email
      let existing := findUser db1 email
      let prevTotalPaid := (existing.bind (fun u => u.limited_paid_amount)).getD 0
      let newTotalPaid := prevTotalPaid + (paidAmount : Rat)
      let upgradeBalance := max (49 - newTotalPaid) 0
      let prevList := csvSplitClean ((existing.bind (fun u => u.limited_partner)).getD "")
      let merged := dedupKeepFirst (prevList ++ [partnerKey])
      let mergedCsv := String.intercalate "," merged
      let accessTalent := ((existing.map (fun u => u.access_talentkonnect)).getD false)
        || partnerKey = "talentkonnect"
      let accessCare := ((existing.map (fun u => u.access_careduel)).getD false)
        || partnerKey = "careduel"
      let accessEco := ((existing.map (fun u => u.access_ecoworldbuy)).getD false)
        || partnerKey = "ecoworldbuy"
      let db2 := upsertUser db1 email (fun u => { u with
        access_mode := some "limited",
        limited_partner := some mergedCsv,
        limited_paid_amount := some newTotalPaid,
        upgrade_balance_amount := some upgradeBalance,
        crowbar_access := true,
        full_access := false,
        updated_at := some now,
        access_talentkonnect := accessTalent,
        access_careduel := accessCare,
        access_ecoworldbuy := accessEco })
      let db3 := bumpUserSpend db2 email usd now
      match lout with
      | .err => ({ success := false, error := some .ledgerInsertFailed }, db3)
      | .dup =>
        let db5 := { db3 with credits := db3.credits ++
          [({ email := email, amount := 0, origin_site := "stripe_payment",
              stripe_event_id := sourceEventId, stripe_session_id := sessionId,
              eligible_global_race := true, legal_accept := true, created_at := now } : CreditRow)] }
        (⟨true, false, none, none⟩, ensureReferralCodeTry db5 email codeSupply)
      | .ok =>
        let db4 := { db3 with ledger := db3.ledger ++
          [({ email := email, delta := 0,
              reason := "payment.limited_pass_" ++ partnerKey ++ "_" ++ toString paidAmount,
              origin_site := "stripe_payment", stripe_event_id := sourceEventId,
              stripe_session_id := sessionId, amount_usd := some usd,
              created_at := now } : LedgerRow)] }
        let db5 := { db4 with credits := db4.credits ++
          [({ email := email, amount := 0, origin_site := "stripe_payment",
              stripe_event_id := sourceEventId, stripe_session_id := sessionId,
              eligible_global_race := true, legal_accept := true, created_at := now } : CreditRow)] }
        (⟨true, false, none, none⟩, ensureReferralCodeTry db5 email codeSupply)

/-- The shared tail of the lifetime-purchase and balance-upgrade flows:
compute the tier benefits and credit delta (for a balance upgrade, only the
credits missing up to 49), upsert the user row, bump spend, insert the
history row, insert the ledger row (fallible), then ensure a referral
code. -/
def mainGrant (email : String) (sessionId : Option String) (usd : Rat) (tier : String)
    (bu : Bool) (sourceEventId : Option String) (lout : LOutcome)
    (codeSupply : String) (now : Time) (db : DB) : HSPResult × DB :=
  let safeTier := if (tierBenefits? tier).isSome then tier else "basic"
  let benefits := (tierBenefits? safeTier).getD ⟨49, 1, 1, "basic", none⟩
  let deltaCredits0 := if benefits.credits ≤ 0 then 49 else benefits.credits
  let existingUser := findUser db email
  let prevCredits := (existingUser.map (fun u => u.total_credits)).getD 0
  let deltaCredits := if bu then max (49 - prevCredits) 0 else deltaCredits0
  let newTotalCredits := if bu then max prevCredits 49 else prevCredits + deltaCredits0
  let db1 := upsertUser db email (fun u =>
    let u1 := { u with
      membership_tier := some benefits.membership_tier,
      membership_activated_at := some now,
      entries_available := some benefits.entries,
      credit_multiplier := some benefits.credit_multiplier,
      total_credits := newTotalCredits,
      updated_at := some now,
      crowbar_access := true,
      full_access := (tier = "pro" ∨ tier = "elite") }
    let u2 := if tier = "elite" then { u1 with
      elite_prep_access := true, vip_onboarding := true, marketplace_priority := true,
      refund_on_event_end := some (benefits.refund_on_event_end.getD 250) } else u1
    let u3 := if tier = "pro" then { u2 with
      priority_challenge := true, pro_welcome_perk := true } else u2
    if bu then { u3 with
      access_mode := some "lifetime", limited_partner := none,
      limited_paid_amount := none, upgrade_balance_amount := none,
      access_talentkonnect := true, access_careduel := true,
      access_ecoworldbuy := true } else u3)
  let db2 := bumpUserSpend db1 email usd now
  let db3 := { db2 with credits := db2.credits ++
    [({ email := email, amount := deltaCredits, origin_site := "stripe_payment",
        stripe_event_id := sourceEventId, stripe_session_id := sessionId,
        eligible_global_race := true, legal_accept := true, created_at := now } : CreditRow)] }
  match lout with
  | .err => ({ success := false, error := some .ledgerInsertFailed }, db3)
  | .dup =>
    (⟨true, false, none, some deltaCredits⟩, ensureReferralCodeTry db3 email codeSupply)
  | .ok =>
    let db4 := { db3 with ledger := db3.ledger ++
      [({ email := email, delta := deltaCredits,
          reason := "membership_purchase_" ++ tier, origin_site := "stripe_payment",
          stripe_event_id := sourceEventId, stripe_session_id := sessionId,
          amount_usd := some usd, created_at := now } : LedgerRow)] }
    (⟨true, false, none, some deltaCredits⟩, ensureReferralCodeTry db4 email codeSupply)

/-- `handleSuccessfulPayment`: resolve the email, apply the event-id
idempotency gate, then dispatch on the payment type; the balance-upgrade
branch validates the limited state and the exact remaining amount at cent
precision before performing the shared grant. -/
def handleSuccessfulPayment (session : Session) (sourceEventId : Option String)
    (lout : LOutcome) (codeSupply : String) (now : Time) (db : DB) : HSPResult × DB :=
  let email := normEmail (jsOrOptStr session.metadata.user_email session.customer_email)
  if email = "" then ({ success := false, error := some .noEmail }, db)
  else
    let sessionId := session.id
    let amountCents := session.amount_total.getD 0
    let usd : Rat := (amountCents : Rat) / 100
    let paymentType := jsOrStr session.metadata.payment_type "lifetime_purchase"
    if eventSeen db sourceEventId then
      ({ success := true, alreadyProcessed := true }, db)
    else if paymentType = "limited_pass" then
      limitedPassFlow session.metadata email sessionId usd sourceEventId lout codeSupply now db
    else
      let tier0 := jsOrStr session.metadata.membership_tier "basic"
      if paymentType = "balance_upgrade" then
        match findUser db email with
        | none => ({ success := false, error := some .upgradeOnlyForLimited }, db)
        | some user =>
          if ¬(user.access_mode = some "limited") then
            ({ success := false, error := some .upgradeOnlyForLimited }, db)
          else
            let paidTotal := user.limited_paid_amount.getD 0
            let expectedBalance : Rat := 49 - paidTotal
            let expectedCents := jsRound (expectedBalance * 100)
            let paidCents := jsRound (usd * 100)
            if expectedBalance ≤ 0 then
              ({ success := false, error := some .noBalanceRemaining }, db)
            else if ¬(paidCents = expectedCents) then
              ({ success := false, error := some .balanceMismatch }, db)
            else
              mainGrant email sessionId usd "basic" true sourceEventId lout codeSupply now db
      else
        mainGrant email sessionId usd tier0 false sourceEventId lout codeSupply now db

/-! ### Store lemmas -/

lemma findU_map_self (l : List User) (e : String) (f : User → User)
    (hf : ∀ u, (f u).email = u.email) :
    findU (l.map (fun u => if u.email == e then f u else u)) e = (findU l e).map f := by
  induction l with
  | nil => rfl
  | cons u t ih =>
    simp only [List.map_cons, findU]
    by_cases h : u.email = e
    · have hb : (u.email == e) = true := by simp [h]
      rw [if_pos hb]
      simp only [findU, hf u, hb, if_true]
      rfl
    · have hb : (u.email == e) = false := by simp [h]
      rw [if_neg (by simp [hb])]
      simp only [findU, hb, Bool.false_eq_true, if_false, ih]

lemma findU_map_ne (l : List User) (e e' : String) (f : User → User)
    (hf : ∀ u, (f u).email = u.email) (hne : e ≠ e') :
    findU (l.map (fun u => if u.email == e' then f u else u)) e = findU l e := by
  induction l with
  | nil => rfl
  | cons u t ih =>
    simp only [List.map_cons]
    by_cases h : u.email = e'
    · have hb : (u.email == e') = true := by simp [h]
      have hue : ¬(u.email = e) := fun hx => hne (hx.symm.trans h)
      rw [if_pos hb]
      simp only [findU, hf u, ih]
      simp [hue]
    · have hb : (u.email == e') = false := by simp [h]
      rw [if_neg (by simp [hb])]
      simp only [findU, ih]

lemma findU_append_single_of_none (l : List User) (r : User) (e : String)
    (h : findU l e = none) (hr : r.email = e) :
    findU (l ++ [r]) e = some r := by
  induction l with
  | nil => simp [findU, hr]
  | cons u t ih =>
    simp only [findU] at h
    by_cases hu : u.email = e
    · simp [hu] at h
    · have hb : (u.email == e) = false := by simp [hu]
      rw [hb] at h
      simp only [Bool.false_eq_true, if_false] at h
      simp only [List.cons_append, findU, hb, Bool.false_eq_true, if_false]
      exact ih h

lemma findUser_updUser_self (db : DB) (e : String) (f : User → User)
    (hf : ∀ u, (f u).email = u.email) :
    findUser (updUser db e f) e = (findUser db e).map f :=
  findU_map_self db.users e f hf

lemma findUser_updUser_ne (db : DB) (e e' : String) (f : User → User)
    (hf : ∀ u, (f u).email = u.email) (hne : e ≠ e') :
    findUser (updUser db e' f) e = findUser db e :=
  findU_map_ne db.users e e' f hf hne

lemma findUser_upsert_self (db : DB) (e : String) (f : User → User)
    (hf : ∀ u, (f u).email = u.email) :
    findUser (upsertUser db e f) e = some (f ((findUser db e).getD { email := e })) := by
  unfold upsertUser
  cases h : findUser db e with
  | some u => rw [findUser_updUser_self db e f hf, h]; rfl
  | none =>
    show findU (db.users ++ [f { email := e }]) e = _
    rw [findU_append_single_of_none db.users _ e h (by rw [hf])]
    rfl

lemma findU_append_single_ne (l : List User) (r : User) (e : String)
    (hr : ¬(r.email = e)) :
    findU (l ++ [r]) e = findU l e := by
  induction l with
  | nil => simp [findU, hr]
  | cons u t ih =>
    by_cases hu : u.email = e <;> simp [findU, hu, ih]

lemma findUser_upsert_ne (db : DB) (e e' : String) (f : User → User)
    (hf : ∀ u, (f u).email = u.email) (hne : e ≠ e') :
    findUser (upsertUser db e' f) e = findUser db e := by
  unfold upsertUser
  cases h : findUser db e' with
  | some u => exact findUser_updUser_ne db e e' f hf hne
  | none =>
    show findU (db.users ++ [f { email := e' }]) e = findUser db e
    have hfe : (f { email := e' } : User).email = e' := hf _
    exact findU_append_single_ne db.users _ e (by rw [hfe]; exact fun hx => hne hx.symm)

lemma findUser_ensure_self (db : DB) (e : String) :
    findUser (ensureUser db e) e = some ((findUser db e).getD { email := e }) := by
  simpa using findUser_upsert_self db e id (fun _ => rfl)

lemma updUser_ledger (db : DB) (e : String) (f : User → User) :
    (updUser db e f).ledger = db.ledger := rfl

lemma upsertUser_ledger (db : DB) (e : String) (f : User → User) :
    (upsertUser db e f).ledger = db.ledger := by
  unfold upsertUser; cases h : findUser db e <;> rfl

lemma upsertUser_credits (db : DB) (e : String) (f : User → User) :
    (upsertUser db e f).credits = db.credits := by
  unfold upsertUser; cases h : findUser db e <;> rfl

lemma upsertUser_referrals (db : DB) (e : String) (f : User → User) :
    (upsertUser db e f).referrals = db.referrals := by
  unfold upsertUser; cases h : findUser db e <;> rfl

lemma bumpUserCredits_find_self (db : DB) (e : String) (d : Int) (now : Time) :
    findUser (bumpUserCredits db e d now).2 e =
      some (let u0 := (findUser db e).getD { email := e }
            { u0 with total_credits := u0.total_credits + d, updated_at := some now }) := by
  simp only [bumpUserCredits]
  rw [findUser_updUser_self]
  · rw [findUser_ensure_self db e]; rfl
  · intro u; rfl

lemma bumpUserCredits_ledger (db : DB) (e : String) (d : Int) (now : Time) :
    (bumpUserCredits db e d now).2.ledger = db.ledger := by
  simp only [bumpUserCredits]
  rw [updUser_ledger]
  unfold ensureUser
  rw [upsertUser_ledger]

lemma updUser_credits (db : DB) (e : String) (f : User → User) :
    (updUser db e f).credits = db.credits := rfl

lemma updUser_referrals (db : DB) (e : String) (f : User → User) :
    (updUser db e f).referrals = db.referrals := rfl

lemma bumpUserCredits_credits (db : DB) (e : String) (d : Int) (now : Time) :
    (bumpUserCredits db e d now).2.credits = db.credits := by
  simp only [bumpUserCredits]
  rw [updUser_credits]
  unfold ensureUser
  rw [upsertUser_credits]

lemma bumpUserSpend_find_self (db : DB) (e : String) (d : Rat) (now : Time) :
    findUser (bumpUserSpend db e d now) e =
      some (let u0 := (findUser db e).getD { email := e }
            { u0 with total_spent := u0.total_spent + d, updated_at := some now }) := by
  simp only [bumpUserSpend]
  rw [findUser_updUser_self]
  · rw [findUser_ensure_self db e]; rfl
  · intro u; rfl

lemma bumpUserSpend_ledger (db : DB) (e : String) (d : Rat) (now : Time) :
    (bumpUserSpend db e d now).ledger = db.ledger := by
  simp only [bumpUserSpend]
  rw [updUser_ledger]
  unfold ensureUser
  rw [upsertUser_ledger]

lemma bumpUserSpend_credits (db : DB) (e : String) (d : Rat) (now : Time) :
    (bumpUserSpend db e d now).credits = db.credits := by
  simp only [bumpUserSpend]
  rw [updUser_credits]
  unfold ensureUser
  rw [upsertUser_credits]

lemma ercTry_find_self (db : DB) (e c : String) (he : jsToLower e = e) :
    findUser (ensureReferralCodeTry db e c) e =
      (findUser db e).map (fun u =>
        if u.referral_code.isSome then u else { u with referral_code := some c }) := by
  unfold ensureReferralCodeTry
  rw [he]
  cases h : findUser db e with
  | none => simp [h]
  | some u =>
    by_cases hrc : u.referral_code.isSome
    · simp only [hrc, if_true, h]
      simp [hrc]
    · simp only [hrc, Bool.false_eq_true, if_false]
      rw [findUser_updUser_self]
      · rw [h]
        simp [hrc]
      · intro u; rfl

lemma ercTry_ledger (db : DB) (e c : String) :
    (ensureReferralCodeTry db e c).ledger = db.ledger := by
  unfold ensureReferralCodeTry
  cases h : findUser db (jsToLower e) with
  | none => rfl
  | some u =>
    by_cases hrc : u.referral_code.isSome
    · simp only [hrc, if_true]
    · simp only [hrc, Bool.false_eq_true, if_false]
      rw [updUser_ledger]

lemma ercTry_credits (db : DB) (e c : String) :
    (ensureReferralCodeTry db e c).credits = db.credits := by
  unfold ensureReferralCodeTry
  cases h : findUser db (jsToLower e) with
  | none => rfl
  | some u =>
    by_cases hrc : u.referral_code.isSome
    · simp only [hrc, if_true]
    · simp only [hrc, Bool.false_eq_true, if_false]
      rw [updUser_credits]

lemma map_tc_ercTry (db : DB) (e c : String) (he : jsToLower e = e) :
    ((findUser (ensureReferralCodeTry db e c) e).map (fun u => u.total_credits)) =
      ((findUser db e).map (fun u => u.total_credits)) := by
  rw [ercTry_find_self db e c he]
  cases h : findUser db e with
  | none => rfl
  | some u =>
    by_cases hrc : u.referral_code.isSome <;> simp [hrc]

/-- The lifetime-basic success path of `mainGrant`: the result reports a
+49 grant, exactly one ledger row is appended, and the stored balance
becomes the previous balance plus 49. -/
lemma mainGrant_basic_ok (email : String) (sid : Option String) (usd : Rat)
    (sev : Option String) (c : String) (now : Time) (db : DB) (he : jsToLower email = email) :
    (mainGrant email sid usd "basic" false sev .ok c now db).1 = ⟨true, false, none, some 49⟩ ∧
    (mainGrant email sid usd "basic" false sev .ok c now db).2.ledger =
      db.ledger ++ [({ email := email, delta := 49, reason := "membership_purchase_basic",
                       origin_site := "stripe_payment", stripe_event_id := sev,
                       stripe_session_id := sid, amount_usd := some usd,
                       created_at := now } : LedgerRow)] ∧
    ((findUser (mainGrant email sid usd "basic" false sev .ok c now db).2 email).map
       (fun u => u.total_credits)) =
      some (((findUser db email).map (fun u => u.total_credits)).getD 0 + 49) := by
  refine ⟨?_, ?_, ?_⟩
  · simp [mainGrant, tierBenefits?]
  · simp only [mainGrant]
    rw [ercTry_ledger]
    show (bumpUserSpend _ email usd now).ledger ++ [_] = _
    rw [bumpUserSpend_ledger, upsertUser_ledger]
    simp [tierBenefits?]
  · simp only [mainGrant]
    rw [map_tc_ercTry _ email c he]
    show ((findUser (bumpUserSpend (upsertUser db email _) email usd now) email).map
      (fun u => u.total_credits)) = _
    rw [bumpUserSpend_find_self]
    rw [findUser_upsert_self]
    · simp [tierBenefits?]
    · intro u; rfl

lemma map_proj_ercTry {β : Type} (db : DB) (e c : String) (he : jsToLower e = e)
    (g : User → β) (hg : ∀ v, g { v with referral_code := some c } = g v) :
    ((findUser (ensureReferralCodeTry db e c) e).map g) = ((findUser db e).map g) := by
  rw [ercTry_find_self db e c he]
  cases h : findUser db e with
  | none => rfl
  | some u =>
    by_cases hrc : u.referral_code.isSome <;> simp [hrc, hg]

/-- The lifetime-basic path of `mainGrant` when the ledger insert fails with
a non-duplicate storage error: the result reports failure, no ledger row is
written, yet the stored balance has already been raised by 49. -/
lemma mainGrant_basic_err (email : String) (sid : Option String) (usd : Rat)
    (sev : Option String) (c : String) (now : Time) (db : DB) :
    (mainGrant email sid usd "basic" false sev .err c now db).1 =
      ⟨false, false, some .ledgerInsertFailed, none⟩ ∧
    (mainGrant email sid usd "basic" false sev .err c now db).2.ledger = db.ledger ∧
    ((findUser (mainGrant email sid usd "basic" false sev .err c now db).2 email).map
       (fun u => u.total_credits)) =
      some (((findUser db email).map (fun u => u.total_credits)).getD 0 + 49) := by
  refine ⟨?_, ?_, ?_⟩
  · simp [mainGrant, tierBenefits?]
  · simp only [mainGrant]
    show (bumpUserSpend _ email usd now).ledger = _
    rw [bumpUserSpend_ledger, upsertUser_ledger]
  · simp only [mainGrant]
    show ((findUser (bumpUserSpend (upsertUser db email _) email usd now) email).map
      (fun u => u.total_credits)) = _
    rw [bumpUserSpend_find_self]
    rw [findUser_upsert_self]
    · simp [tierBenefits?]
    · intro u; rfl

/-- The balance-upgrade success path of `mainGrant`: the granted delta is
`max (49 - prev) 0`, the final balance is `max prev 49`, and the user
transitions to lifetime access with all three partner flags set. -/
lemma mainGrant_bu_ok (email : String) (sid : Option String) (usd : Rat)
    (sev : Option String) (c : String) (now : Time) (db : DB) (u : User)
    (he : jsToLower email = email) (hu : findUser db email = some u) :
    (mainGrant email sid usd "basic" true sev .ok c now db).1 =
      ⟨true, false, none, some (max (49 - u.total_credits) 0)⟩ ∧
    (mainGrant email sid usd "basic" true sev .ok c now db).2.ledger =
      db.ledger ++ [({ email := email, delta := max (49 - u.total_credits) 0,
                       reason := "membership_purchase_basic",
                       origin_site := "stripe_payment", stripe_event_id := sev,
                       stripe_session_id := sid, amount_usd := some usd,
                       created_at := now } : LedgerRow)] ∧
    ((findUser (mainGrant email sid usd "basic" true sev .ok c now db).2 email).map
       (fun v => (v.total_credits, v.access_mode, v.access_talentkonnect,
                  v.access_careduel, v.access_ecoworldbuy))) =
      some (max u.total_credits 49, some "lifetime", true, true, true) := by
  refine ⟨?_, ?_, ?_⟩
  · simp [mainGrant, tierBenefits?, hu]
  · simp only [mainGrant]
    rw [ercTry_ledger]
    show (bumpUserSpend _ email usd now).ledger ++ [_] = _
    rw [bumpUserSpend_ledger, upsertUser_ledger]
    simp [tierBenefits?, hu]
  · simp only [mainGrant]
    rw [map_proj_ercTry _ email c he
        (fun v => (v.total_credits, v.access_mode, v.access_talentkonnect,
                   v.access_careduel, v.access_ecoworldbuy)) (fun v => rfl)]
    show ((findUser (bumpUserSpend (upsertUser db email _) email usd now) email).map _) = _
    rw [bumpUserSpend_find_self]
    rw [findUser_upsert_self]
    · simp [tierBenefits?, hu]
    · intro v; rfl

/-- A basic-tier lifetime-purchase checkout-session object, as the webhook
receives it. -/
def basicSession (email : String) (sid ce : Option String) (amt : Option Int)
    (pk : Option String) (lpa : Option Int) : Session :=
  { id := sid, customer_email := ce, amount_total := amt,
    metadata := { user_email := some email,
                  payment_type := some "lifetime_purchase",
                  partner_key := pk, limited_paid_amount := lpa,
                  membership_tier := some "basic" } }

/-- A lifetime-basic checkout session reduces to the shared grant tail once
the email resolves and the event id has not been seen. -/
lemma hsp_lifetime_basic_reduce (email : String) (sid ce : Option String)
    (amt : Option Int) (pk : Option String) (lpa : Option Int)
    (sev : Option String) (lout : LOutcome) (c : String) (now : Time) (db : DB)
    (hnorm : jsToLower (jsTrim email) = email) (hemail : email ≠ "")
    (hseen : eventSeen db sev = false) :
    handleSuccessfulPayment (basicSession email sid ce amt pk lpa) sev lout c now db
      = mainGrant email sid (((amt.getD 0 : Int) : Rat) / 100) "basic" false sev lout c now db := by
  simp [handleSuccessfulPayment, basicSession, normEmail, jsOrOptStr, jsOrStr,
        hnorm, hemail, hseen]

/-- The lifetime-basic path of `mainGrant` when the ledger insert hits a
unique-constraint violation (Postgres 23505, ignored by the code): the run
still reports success, writes no ledger row, and the balance has
nevertheless been raised by 49. -/
lemma mainGrant_basic_dup (email : String) (sid : Option String) (usd : Rat)
    (sev : Option String) (c : String) (now : Time) (db : DB)
    (he : jsToLower email = email) :
    (mainGrant email sid usd "basic" false sev .dup c now db).1 =
      ⟨true, false, none, some 49⟩ ∧
    (mainGrant email sid usd "basic" false sev .dup c now db).2.ledger = db.ledger ∧
    ((findUser (mainGrant email sid usd "basic" false sev .dup c now db).2 email).map
       (fun u => u.total_credits)) =
      some (((findUser db email).map (fun u => u.total_credits)).getD 0 + 49) := by
  refine ⟨?_, ?_, ?_⟩
  · simp [mainGrant, tierBenefits?]
  · simp only [mainGrant]
    rw [ercTry_ledger]
    show (bumpUserSpend _ email usd now).ledger = _
    rw [bumpUserSpend_ledger, upsertUser_ledger]
  · simp only [mainGrant]
    rw [map_tc_ercTry _ email c he]
    show ((findUser (bumpUserSpend (upsertUser db email _) email usd now) email).map
      (fun u => u.total_credits)) = _
    rw [bumpUserSpend_find_self]
    rw [findUser_upsert_self]
    · simp [tierBenefits?]
    · intro u; rfl

/-- When a ledger row already records the source event id (and the email
resolves), the reconciliation is a pure no-op returning "already
processed". -/
lemma hsp_already (s : Session) (sev : Option String) (lout : LOutcome)
    (c : String) (now : Time) (db : DB)
    (hne : normEmail (jsOrOptStr s.metadata.user_email s.customer_email) ≠ "")
    (hseen : eventSeen db sev = true) :
    handleSuccessfulPayment s sev lout c now db
      = ({ success := true, alreadyProcessed := true }, db) := by
  simp [handleSuccessfulPayment, hne, hseen]

/-- A successful reconciliation implies the email resolved. -/
lemma hsp_success_email (s : Session) (sev : Option String) (lout : LOutcome)
    (c : String) (now : Time) (db : DB)
    (hs : (handleSuccessfulPayment s sev lout c now db).1.success = true) :
    normEmail (jsOrOptStr s.metadata.user_email s.customer_email) ≠ "" := by
  intro hne
  rw [show handleSuccessfulPayment s sev lout c now db
        = ({ success := false, error := some .noEmail }, db) by
      simp [handleSuccessfulPayment, hne]] at hs
  exact Bool.false_ne_true hs

lemma findLedgerByEvent_append_last (l : List LedgerRow) (r : LedgerRow) (e : String) :
    (findLedgerByEvent (l ++ [r]) e).isSome
      = ((findLedgerByEvent l e).isSome || (r.stripe_event_id == some e)) := by
  induction l with
  | nil =>
    by_cases hr : r.stripe_event_id = some e <;>
      simp [findLedgerByEvent, hr]
  | cons x t ih =>
    by_cases hx : x.stripe_event_id = some e <;>
      simp [findLedgerByEvent, hx, ih]

lemma limitedPassFlow_ok_seen_or_fail (meta : SessionMeta) (email : String)
    (sid : Option String) (usd : Rat) (e c : String) (now : Time) (db : DB)
    (he : e ≠ "") :
    (limitedPassFlow meta email sid usd (some e) .ok c now db).1.success = false
    ∨ eventSeen (limitedPassFlow meta email sid usd (some e) .ok c now db).2 (some e) = true := by
  simp only [limitedPassFlow]
  split
  · left; rfl
  · split
    · left; rfl
    · right
      simp only [eventSeen]
      rw [if_neg he, ercTry_ledger]
      simp [findLedgerByEvent_append_last]

lemma mainGrant_ok_eventSeen (email : String) (sid : Option String) (usd : Rat)
    (tier : String) (bu : Bool) (e c : String) (now : Time) (db : DB) (he : e ≠ "") :
    eventSeen (mainGrant email sid usd tier bu (some e) .ok c now db).2 (some e) = true := by
  simp only [mainGrant, eventSeen]
  rw [if_neg he, ercTry_ledger]
  simp [findLedgerByEvent_append_last]

/-- Every run of the reconciliation with a succeeding ledger insert and a
truthy source event id either fails, or afterwards the event id is recorded
in the ledger (either because it already was, or because exactly this run
appended the row carrying it). -/
lemma hsp_ok_seen_or_fail (s : Session) (e c : String) (now : Time) (db : DB)
    (he : e ≠ "") :
    (handleSuccessfulPayment s (some e) .ok c now db).1.success = false
    ∨ eventSeen (handleSuccessfulPayment s (some e) .ok c now db).2 (some e) = true := by
  simp only [handleSuccessfulPayment]
  split
  · left; rfl
  · split
    · right; assumption
    · split
      · exact limitedPassFlow_ok_seen_or_fail s.metadata _ s.id _ e c now db he
      · split
        · split
          · left; rfl
          · split
            · left; rfl
            · split
              · left; rfl
              · split
                · left; rfl
                · right; exact mainGrant_ok_eventSeen _ s.id _ "basic" true e c now db he
        · right; exact mainGrant_ok_eventSeen _ s.id _ _ false e c now db he

lemma hsp_ok_eventSeen_after (s : Session) (e c : String) (now : Time) (db : DB)
    (he : e ≠ "")
    (hs : (handleSuccessfulPayment s (some e) .ok c now db).1.success = true) :
    eventSeen (handleSuccessfulPayment s (some e) .ok c now db).2 (some e) = true := by
  rcases hsp_ok_seen_or_fail s e c now db he with h | h
  · rw [h] at hs; cases hs
  · exact h

/-- The balance-upgrade checkout-session object, as the webhook receives
it: `payment_type` is `balance_upgrade` in the metadata. -/
def buSession (email : String) (sid ce : Option String) (amt : Option Int)
    (pk : Option String) (lpa : Option Int) (mt : Option String) : Session :=
  { id := sid, customer_email := ce, amount_total := amt,
    metadata := { user_email := some email, payment_type := some "balance_upgrade",
                  partner_key := pk, limited_paid_amount := lpa,
                  membership_tier := mt } }

lemma hsp_bu_reduce (email : String) (sid ce : Option String) (amt : Option Int)
    (pk : Option String) (lpa : Option Int) (mt : Option String)
    (sev : Option String) (lout : LOutcome) (c : String) (now : Time) (db : DB)
    (u : User)
    (hnorm : jsToLower (jsTrim email) = email) (hemail : email ≠ "")
    (hseen : eventSeen db sev = false)
    (hu : findUser db email = some u)
    (hlim : u.access_mode = some "limited")
    (hbal : ¬((49 : Rat) - u.limited_paid_amount.getD 0 ≤ 0))
    (hcents : jsRound ((((amt.getD 0 : Int) : Rat) / 100) * 100)
      = jsRound (((49 : Rat) - u.limited_paid_amount.getD 0) * 100)) :
    handleSuccessfulPayment (buSession email sid ce amt pk lpa mt) sev lout c now db
      = mainGrant email sid (((amt.getD 0 : Int) : Rat) / 100) "basic" true sev lout c now db := by
  have hcents2 : jsRound ((amt.getD 0 : Int) : Rat)
      = jsRound (((49 : Rat) - u.limited_paid_amount.getD 0) * 100) := by
    have h100 : (((amt.getD 0 : Int) : Rat) / 100) * 100 = ((amt.getD 0 : Int) : Rat) := by
      field_simp
    rwa [h100] at hcents
  simp [handleSuccessfulPayment, buSession, normEmail, jsOrOptStr, jsOrStr,
        hnorm, hemail, hseen, hu, hlim, hbal, hcents2]

lemma hsp_bu_fail_nouser (email : String) (sid ce : Option String) (amt : Option Int)
    (pk : Option String) (lpa : Option Int) (mt : Option String)
    (sev : Option String) (lout : LOutcome) (c : String) (now : Time) (db : DB)
    (hnorm : jsToLower (jsTrim email) = email) (hemail : email ≠ "")
    (hseen : eventSeen db sev = false)
    (hu : findUser db email = none) :
    handleSuccessfulPayment (buSession email sid ce amt pk lpa mt) sev lout c now db
      = ({ success := false, error := some .upgradeOnlyForLimited }, db) := by
  simp [handleSuccessfulPayment, buSession, normEmail, jsOrOptStr, jsOrStr,
        hnorm, hemail, hseen, hu]

lemma hsp_bu_fail_notlimited (email : String) (sid ce : Option String) (amt : Option Int)
    (pk : Option String) (lpa : Option Int) (mt : Option String)
    (sev : Option String) (lout : LOutcome) (c : String) (now : Time) (db : DB)
    (u : User)
    (hnorm : jsToLower (jsTrim email) = email) (hemail : email ≠ "")
    (hseen : eventSeen db sev = false)
    (hu : findUser db email = some u)
    (hlim : ¬(u.access_mode = some "limited")) :
    handleSuccessfulPayment (buSession email sid ce amt pk lpa mt) sev lout c now db
      = ({ success := false, error := some .upgradeOnlyForLimited }, db) := by
  simp [handleSuccessfulPayment, buSession, normEmail, jsOrOptStr, jsOrStr,
        hnorm, hemail, hseen, hu, hlim]

lemma hsp_bu_fail_nobalance (email : String) (sid ce : Option String) (amt : Option Int)
    (pk : Option String) (lpa : Option Int) (mt : Option String)
    (sev : Option String) (lout : LOutcome) (c : String) (now : Time) (db : DB)
    (u : User)
    (hnorm : jsToLower (jsTrim email) = email) (hemail : email ≠ "")
    (hseen : eventSeen db sev = false)
    (hu : findUser db email = some u)
    (hlim : u.access_mode = some "limited")
    (hbal : (49 : Rat) - u.limited_paid_amount.getD 0 ≤ 0) :
    handleSuccessfulPayment (buSession email sid ce amt pk lpa mt) sev lout c now db
      = ({ success := false, error := some .noBalanceRemaining }, db) := by
  simp [handleSuccessfulPayment, buSession, normEmail, jsOrOptStr, jsOrStr,
        hnorm, hemail, hseen, hu, hlim, hbal]

lemma hsp_bu_fail_mismatch (email : String) (sid ce : Option String) (amt : Option Int)
    (pk : Option String) (lpa : Option Int) (mt : Option String)
    (sev : Option String) (lout : LOutcome) (c : String) (now : Time) (db : DB)
    (u : User)
    (hnorm : jsToLower (jsTrim email) = email) (hemail : email ≠ "")
    (hseen : eventSeen db sev = false)
    (hu : findUser db email = some u)
    (hlim : u.access_mode = some "limited")
    (hbal : ¬((49 : Rat) - u.limited_paid_amount.getD 0 ≤ 0))
    (hcents : ¬(jsRound ((((amt.getD 0 : Int) : Rat) / 100) * 100)
      = jsRound (((49 : Rat) - u.limited_paid_amount.getD 0) * 100))) :
    handleSuccessfulPayment (buSession email sid ce amt pk lpa mt) sev lout c now db
      = ({ success := false, error := some .balanceMismatch }, db) := by
  have hcents2 : ¬(jsRound ((amt.getD 0 : Int) : Rat)
      = jsRound (((49 : Rat) - u.limited_paid_amount.getD 0) * 100)) := by
    have h100 : (((amt.getD 0 : Int) : Rat) / 100) * 100 = ((amt.getD 0 : Int) : Rat) := by
      field_simp
    rwa [h100] at hcents
  simp [handleSuccessfulPayment, buSession, normEmail, jsOrOptStr, jsOrStr,
        hnorm, hemail, hseen, hu, hlim, hbal, hcents2]

/-! ### Concrete fixtures for witnesses and counterexamples -/

/-- The empty store. -/
def emptyDB : DB := ⟨[], [], [], []⟩

/-- A fixed reference timestamp (2023-11-14 UTC, epoch ms). -/
def t0 : Time := 1700000000000

/-- A paid basic lifetime checkout session for `a@x.com`, $49.00. -/
def sess49 : Session := basicSession "a@x.com" (some "cs_1") none (some 4900) none none

/-- The store after the first (successful) delivery of `cs_1` as `evt_1`. -/
def dbAfter1 : DB :=
  (handleSuccessfulPayment sess49 (some "evt_1") .ok "CWB-AAAAAA" t0 emptyDB).2

lemma run1_eq :
    handleSuccessfulPayment sess49 (some "evt_1") .ok "CWB-AAAAAA" t0 emptyDB
      = mainGrant "a@x.com" (some "cs_1") ((((some (4900 : Int)).getD 0 : Int) : Rat) / 100)
          "basic" false (some "evt_1") .ok "CWB-AAAAAA" t0 emptyDB := by
  simp only [sess49]
  exact hsp_lifetime_basic_reduce "a@x.com" (some "cs_1") none (some 4900) none none
    (some "evt_1") .ok "CWB-AAAAAA" t0 emptyDB (by decide) (by decide) (by decide)

lemma dbAfter1_ledger :
    dbAfter1.ledger =
      [({ email := "a@x.com", delta := 49, reason := "membership_purchase_basic",
          origin_site := "stripe_payment", stripe_event_id := some "evt_1",
          stripe_session_id := some "cs_1",
          amount_usd := some ((((some (4900 : Int)).getD 0 : Int) : Rat) / 100),
          created_at := t0 } : LedgerRow)] := by
  have h := (mainGrant_basic_ok "a@x.com" (some "cs_1")
    ((((some (4900 : Int)).getD 0 : Int) : Rat) / 100) (some "evt_1") "CWB-AAAAAA" t0 emptyDB
    (by decide)).2.1
  rw [dbAfter1, run1_eq, h]
  rfl

lemma dbAfter1_credits :
    ((findUser dbAfter1 "a@x.com").map (fun u => u.total_credits)) = some 49 := by
  have h := (mainGrant_basic_ok "a@x.com" (some "cs_1")
    ((((some (4900 : Int)).getD 0 : Int) : Rat) / 100) (some "evt_1") "CWB-AAAAAA" t0 emptyDB
    (by decide)).2.2
  rw [dbAfter1, run1_eq, h]
  simp [emptyDB, findUser, findU]

lemma dbAfter1_evt2_fresh : eventSeen dbAfter1 (some "evt_2") = false := by
  simp [eventSeen, dbAfter1_ledger, findLedgerByEvent]

/-! ### Claims C1 - C3: webhook idempotency and write ordering -/

/-- C1, counterexample: `handleSuccessfulPayment` has no session-id
idempotency gate.  Delivering the same `cs_1` session twice under two
distinct event ids grants twice: after the first delivery the balance is
49 with one delta-49 ledger row for the session; the second delivery
succeeds (not "already processed"), raises the balance to 98 and appends a
second delta-49 row for the same session id — and even when the second
ledger insert hits a unique-constraint violation (23505), the balance has
already been raised to 98.  This contradicts the claim that the second
delivery inserts no additional ledger row and leaves the user unchanged. -/
theorem C1_counterexample :
    ((findUser dbAfter1 "a@x.com").map (fun u => u.total_credits) = some 49) ∧
    (dbAfter1.ledger.filter
      (fun r => r.stripe_session_id == some "cs_1" && decide (1 ≤ r.delta))).length = 1 ∧
    (handleSuccessfulPayment sess49 (some "evt_2") .ok "CWB-BBBBBB" (t0 + 1) dbAfter1).1.success
      = true ∧
    (handleSuccessfulPayment sess49 (some "evt_2") .ok "CWB-BBBBBB" (t0 + 1) dbAfter1).1.alreadyProcessed
      = false ∧
    ((findUser (handleSuccessfulPayment sess49 (some "evt_2") .ok "CWB-BBBBBB" (t0 + 1) dbAfter1).2
        "a@x.com").map (fun u => u.total_credits) = some 98) ∧
    ((handleSuccessfulPayment sess49 (some "evt_2") .ok "CWB-BBBBBB" (t0 + 1) dbAfter1).2.ledger.filter
      (fun r => r.stripe_session_id == some "cs_1" && decide (1 ≤ r.delta))).length = 2 ∧
    ((findUser (handleSuccessfulPayment sess49 (some "evt_2") .dup "CWB-BBBBBB" (t0 + 1) dbAfter1).2
        "a@x.com").map (fun u => u.total_credits) = some 98) := by
  have hred2ok : handleSuccessfulPayment sess49 (some "evt_2") .ok "CWB-BBBBBB" (t0 + 1) dbAfter1
      = mainGrant "a@x.com" (some "cs_1") ((((some (4900 : Int)).getD 0 : Int) : Rat) / 100)
          "basic" false (some "evt_2") .ok "CWB-BBBBBB" (t0 + 1) dbAfter1 := by
    simp only [sess49]
    exact hsp_lifetime_basic_reduce "a@x.com" (some "cs_1") none (some 4900) none none
      (some "evt_2") .ok "CWB-BBBBBB" (t0 + 1) dbAfter1 (by decide) (by decide) dbAfter1_evt2_fresh
  have hred2dup : handleSuccessfulPayment sess49 (some "evt_2") .dup "CWB-BBBBBB" (t0 + 1) dbAfter1
      = mainGrant "a@x.com" (some "cs_1") ((((some (4900 : Int)).getD 0 : Int) : Rat) / 100)
          "basic" false (some "evt_2") .dup "CWB-BBBBBB" (t0 + 1) dbAfter1 := by
    simp only [sess49]
    exact hsp_lifetime_basic_reduce "a@x.com" (some "cs_1") none (some 4900) none none
      (some "evt_2") .dup "CWB-BBBBBB" (t0 + 1) dbAfter1 (by decide) (by decide) dbAfter1_evt2_fresh
  obtain ⟨h2a, h2b, h2c⟩ := mainGrant_basic_ok "a@x.com" (some "cs_1")
    ((((some (4900 : Int)).getD 0 : Int) : Rat) / 100) (some "evt_2") "CWB-BBBBBB" (t0 + 1)
    dbAfter1 (by decide)
  obtain ⟨h3a, h3b, h3c⟩ := mainGrant_basic_dup "a@x.com" (some "cs_1")
    ((((some (4900 : Int)).getD 0 : Int) : Rat) / 100) (some "evt_2") "CWB-BBBBBB" (t0 + 1)
    dbAfter1 (by decide)
  refine ⟨dbAfter1_credits, ?_, ?_, ?_, ?_, ?_, ?_⟩
  · rw [dbAfter1_ledger]; decide
  · rw [hred2ok, h2a]
  · rw [hred2ok, h2a]
  · rw [hred2ok, h2c, dbAfter1_credits]; decide
  · rw [hred2ok, h2b, dbAfter1_ledger]; decide
  · rw [hred2dup, h3c, dbAfter1_credits]; decide

/-- C1, amended: the only idempotency dimension of
`handleSuccessfulPayment` is the stripe event id.  A delivery of a
lifetime-basic session whose event id is fresh is fully processed
regardless of any existing ledger rows for the same session id: it
succeeds, appends one more `membership_purchase_basic` ledger row with
delta 49 for that session, and raises `total_credits` by another 49
(session-id deduplication exists only in the bridge sync-checkout path,
not here). -/
theorem C1_theorem (email : String) (sid ce : Option String) (amt : Option Int)
    (pk : Option String) (lpa : Option Int) (e2 c : String) (now : Time) (db : DB)
    (htrim : jsTrim email = email) (hlower : jsToLower email = email)
    (hemail : email ≠ "") (hseen : eventSeen db (some e2) = false) :
    (handleSuccessfulPayment (basicSession email sid ce amt pk lpa)
        (some e2) .ok c now db).1.success = true ∧
    (handleSuccessfulPayment (basicSession email sid ce amt pk lpa)
        (some e2) .ok c now db).1.alreadyProcessed = false ∧
    (handleSuccessfulPayment (basicSession email sid ce amt pk lpa)
        (some e2) .ok c now db).2.ledger = db.ledger ++
      [({ email := email, delta := 49, reason := "membership_purchase_basic",
          origin_site := "stripe_payment", stripe_event_id := some e2,
          stripe_session_id := sid, amount_usd := some (((amt.getD 0 : Int) : Rat) / 100),
          created_at := now } : LedgerRow)] ∧
    ((findUser (handleSuccessfulPayment (basicSession email sid ce amt pk lpa)
        (some e2) .ok c now db).2 email).map (fun u => u.total_credits))
      = some (((findUser db email).map (fun u => u.total_credits)).getD 0 + 49) := by
  have hnorm : jsToLower (jsTrim email) = email := by rw [htrim]; exact hlower
  rw [hsp_lifetime_basic_reduce email sid ce amt pk lpa (some e2) .ok c now db
      hnorm hemail hseen]
  obtain ⟨h1, h2, h3⟩ := mainGrant_basic_ok email sid (((amt.getD 0 : Int) : Rat) / 100)
    (some e2) c now db hlower
  exact ⟨by rw [h1], by rw [h1], h2, h3⟩

/-- C1, witness: the amended theorem applied to the store that already
holds the delta-49 row for session `cs_1` — the fresh event id `evt_2` is
re-processed and the balance goes from 49 to 98. -/
theorem C1_witness :
    (handleSuccessfulPayment (basicSession "a@x.com" (some "cs_1") none (some 4900) none none)
        (some "evt_2") .ok "CWB-BBBBBB" (t0 + 1) dbAfter1).1.success = true ∧
    (handleSuccessfulPayment (basicSession "a@x.com" (some "cs_1") none (some 4900) none none)
        (some "evt_2") .ok "CWB-BBBBBB" (t0 + 1) dbAfter1).1.alreadyProcessed = false ∧
    (handleSuccessfulPayment (basicSession "a@x.com" (some "cs_1") none (some 4900) none none)
        (some "evt_2") .ok "CWB-BBBBBB" (t0 + 1) dbAfter1).2.ledger = dbAfter1.ledger ++
      [({ email := "a@x.com", delta := 49, reason := "membership_purchase_basic",
          origin_site := "stripe_payment", stripe_event_id := some "evt_2",
          stripe_session_id := some "cs_1",
          amount_usd := some ((((some (4900 : Int)).getD 0 : Int) : Rat) / 100),
          created_at := t0 + 1 } : LedgerRow)] ∧
    ((findUser (handleSuccessfulPayment
        (basicSession "a@x.com" (some "cs_1") none (some 4900) none none)
        (some "evt_2") .ok "CWB-BBBBBB" (t0 + 1) dbAfter1).2 "a@x.com").map
          (fun u => u.total_credits))
      = some (((findUser dbAfter1 "a@x.com").map (fun u => u.total_credits)).getD 0 + 49) :=
  C1_theorem "a@x.com" (some "cs_1") none (some 4900) none none "evt_2" "CWB-BBBBBB"
    (t0 + 1) dbAfter1 (by decide) (by decide) (by decide) dbAfter1_evt2_fresh

/-- C2, counterexample: in `handleSuccessfulPayment` the user-row mutation
is written before the credits-ledger insert, not after it.  When the
ledger insert fails with a non-duplicate storage error on a fresh basic
purchase, the operation reports failure, yet `total_credits` has already
been raised to 49 while the ledger holds no row — the balance runs ahead
of the ledger, the reverse of the claimed ordering. -/
theorem C2_counterexample :
    (handleSuccessfulPayment sess49 (some "evt_9") .err "CWB-AAAAAA" t0 emptyDB).1.success
      = false ∧
    (handleSuccessfulPayment sess49 (some "evt_9") .err "CWB-AAAAAA" t0 emptyDB).1.error
      = some .ledgerInsertFailed ∧
    ((findUser (handleSuccessfulPayment sess49 (some "evt_9") .err "CWB-AAAAAA" t0 emptyDB).2
        "a@x.com").map (fun u => u.total_credits) = some 49) ∧
    (handleSuccessfulPayment sess49 (some "evt_9") .err "CWB-AAAAAA" t0 emptyDB).2.ledger = [] := by
  have hred : handleSuccessfulPayment sess49 (some "evt_9") .err "CWB-AAAAAA" t0 emptyDB
      = mainGrant "a@x.com" (some "cs_1") ((((some (4900 : Int)).getD 0 : Int) : Rat) / 100)
          "basic" false (some "evt_9") .err "CWB-AAAAAA" t0 emptyDB := by
    simp only [sess49]
    exact hsp_lifetime_basic_reduce "a@x.com" (some "cs_1") none (some 4900) none none
      (some "evt_9") .err "CWB-AAAAAA" t0 emptyDB (by decide) (by decide) (by decide)
  obtain ⟨h1, h2, h3⟩ := mainGrant_basic_err "a@x.com" (some "cs_1")
    ((((some (4900 : Int)).getD 0 : Int) : Rat) / 100) (some "evt_9") "CWB-AAAAAA" t0 emptyDB
  refine ⟨by rw [hred, h1], by rw [hred, h1], ?_, by rw [hred, h2]; rfl⟩
  rw [hred, h3]
  simp [emptyDB, findUser, findU]

/-- C2, amended: the write order of the lifetime flow is user-row upsert,
then spend bump, then credits-history insert, then ledger insert.  If the
ledger insert fails with a non-duplicate error, the run returns a failure
result and writes no ledger row, but the user balance has already been
raised by the grant — a crash at the ledger step leaves a balance bump
with no corresponding ledger row (balance ahead of ledger, never the
claimed reverse). -/
theorem C2_theorem (email : String) (sid ce : Option String) (amt : Option Int)
    (pk : Option String) (lpa : Option Int) (e2 c : String) (now : Time) (db : DB)
    (htrim : jsTrim email = email) (hlower : jsToLower email = email)
    (hemail : email ≠ "") (hseen : eventSeen db (some e2) = false) :
    (handleSuccessfulPayment (basicSession email sid ce amt pk lpa)
        (some e2) .err c now db).1.success = false ∧
    (handleSuccessfulPayment (basicSession email sid ce amt pk lpa)
        (some e2) .err c now db).1.error = some .ledgerInsertFailed ∧
    (handleSuccessfulPayment (basicSession email sid ce amt pk lpa)
        (some e2) .err c now db).2.ledger = db.ledger ∧
    ((findUser (handleSuccessfulPayment (basicSession email sid ce amt pk lpa)
        (some e2) .err c now db).2 email).map (fun u => u.total_credits))
      = some (((findUser db email).map (fun u => u.total_credits)).getD 0 + 49) := by
  have hnorm : jsToLower (jsTrim email) = email := by rw [htrim]; exact hlower
  rw [hsp_lifetime_basic_reduce email sid ce amt pk lpa (some e2) .err c now db
      hnorm hemail hseen]
  obtain ⟨h1, h2, h3⟩ := mainGrant_basic_err email sid (((amt.getD 0 : Int) : Rat) / 100)
    (some e2) c now db
  exact ⟨by rw [h1], by rw [h1], h2, h3⟩

/-- C2, witness: the amended theorem evaluated on the empty store — the
failing ledger insert leaves balance 49 and an empty ledger. -/
theorem C2_witness :
    (handleSuccessfulPayment (basicSession "a@x.com" (some "cs_1") none (some 4900) none none)
        (some "evt_9") .err "CWB-AAAAAA" t0 emptyDB).1.success = false ∧
    (handleSuccessfulPayment (basicSession "a@x.com" (some "cs_1") none (some 4900) none none)
        (some "evt_9") .err "CWB-AAAAAA" t0 emptyDB).1.error = some .ledgerInsertFailed ∧
    (handleSuccessfulPayment (basicSession "a@x.com" (some "cs_1") none (some 4900) none none)
        (some "evt_9") .err "CWB-AAAAAA" t0 emptyDB).2.ledger = emptyDB.ledger ∧
    ((findUser (handleSuccessfulPayment
        (basicSession "a@x.com" (some "cs_1") none (some 4900) none none)
        (some "evt_9") .err "CWB-AAAAAA" t0 emptyDB).2 "a@x.com").map
          (fun u => u.total_credits))
      = some (((findUser emptyDB "a@x.com").map (fun u => u.total_credits)).getD 0 + 49) :=
  C2_theorem "a@x.com" (some "cs_1") none (some 4900) none none "evt_9" "CWB-AAAAAA"
    t0 emptyDB (by decide) (by decide) (by decide) (by decide)

/-- C3: once `handleSuccessfulPayment` has completed successfully for a
session with a truthy source event id (and a succeeding ledger insert), a
second invocation with the same session and the same event id returns an
"already processed" result and leaves the store exactly unchanged — zero
new ledger rows and unchanged `total_credits` / `total_spent`. -/
theorem C3_theorem (s : Session) (e c c2 : String) (l2 : LOutcome)
    (now now2 : Time) (db : DB) (he : e ≠ "")
    (hs : (handleSuccessfulPayment s (some e) .ok c now db).1.success = true) :
    handleSuccessfulPayment s (some e) l2 c2 now2
        (handleSuccessfulPayment s (some e) .ok c now db).2
      = ({ success := true, alreadyProcessed := true },
         (handleSuccessfulPayment s (some e) .ok c now db).2) := by
  have hne := hsp_success_email s (some e) .ok c now db hs
  have hseen := hsp_ok_eventSeen_after s e c now db he hs
  exact hsp_already s (some e) l2 c2 now2 _ hne hseen

/-- C3, witness: redelivering `evt_1` for the basic session after its first
successful processing is a strict no-op on the store. -/
theorem C3_witness :
    handleSuccessfulPayment sess49 (some "evt_1") .ok "CWB-BBBBBB" (t0 + 5)
        (handleSuccessfulPayment sess49 (some "evt_1") .ok "CWB-AAAAAA" t0 emptyDB).2
      = ({ success := true, alreadyProcessed := true },
         (handleSuccessfulPayment sess49 (some "evt_1") .ok "CWB-AAAAAA" t0 emptyDB).2) :=
  C3_theorem sess49 "evt_1" "CWB-AAAAAA" "CWB-BBBBBB" .ok t0 (t0 + 5) emptyDB
    (by decide) (by rw [run1_eq, (mainGrant_basic_ok "a@x.com" (some "cs_1")
      ((((some (4900 : Int)).getD 0 : Int) : Rat) / 100) (some "evt_1") "CWB-AAAAAA" t0 emptyDB
      (by decide)).1])

/-! ### Claims C4 - C5: balance-upgrade validation and grant -/

/-- A limited-mode user whose `limited_paid_amount` is null (treated as
paid amount 0 by the reconciliation). -/
def uLimNone : User := { email := "c@x.com", access_mode := some "limited" }

/-- A store holding only `uLimNone`. -/
def dbLimNone : DB := ⟨[uLimNone], [], [], []⟩

/-- A limited-mode user with a prior paid amount of 14 dollars. -/
def uLim14 : User :=
  { email := "b@x.com", access_mode := some "limited",
    limited_paid_amount := some 14, total_spent := 14 }

/-- A store holding only `uLim14`. -/
def dbLim14 : DB := ⟨[uLim14], [], [], []⟩

/-- C4, counterexample: the reconciliation does not require a prior paid
amount `P` with `0 < P`.  A user in limited mode whose
`limited_paid_amount` is null (so `P` coerces to 0) paying exactly $49.00
is accepted: the run succeeds with no error, grants the credits and flips
the user to lifetime — whereas the claim requires every balance-upgrade
invocation to satisfy `0 < P < 49`. -/
theorem C4_counterexample :
    (handleSuccessfulPayment (buSession "c@x.com" (some "cs_z") none (some 4900) none none none)
        (some "evt_z") .ok "CWB-CCCCCC" t0 dbLimNone).1.success = true ∧
    (handleSuccessfulPayment (buSession "c@x.com" (some "cs_z") none (some 4900) none none none)
        (some "evt_z") .ok "CWB-CCCCCC" t0 dbLimNone).1.error = none ∧
    ((findUser (handleSuccessfulPayment
        (buSession "c@x.com" (some "cs_z") none (some 4900) none none none)
        (some "evt_z") .ok "CWB-CCCCCC" t0 dbLimNone).2 "c@x.com").map
          (fun v => (v.total_credits, v.access_mode, v.access_talentkonnect,
                     v.access_careduel, v.access_ecoworldbuy)))
      = some (49, some "lifetime", true, true, true) ∧
    (handleSuccessfulPayment (buSession "c@x.com" (some "cs_z") none (some 4900) none none none)
        (some "evt_z") .ok "CWB-CCCCCC" t0 dbLimNone).2.ledger.length = 1 := by
  have hred := hsp_bu_reduce "c@x.com" (some "cs_z") none (some 4900) none none none
    (some "evt_z") .ok "CWB-CCCCCC" t0 dbLimNone uLimNone
    (by decide) (by decide) (by decide) (by decide) (by decide)
    (by norm_num [uLimNone]) (by norm_num [uLimNone, jsRound])
  obtain ⟨h1, h2, h3⟩ := mainGrant_bu_ok "c@x.com" (some "cs_z")
    ((((some (4900 : Int)).getD 0 : Int) : Rat) / 100) (some "evt_z") "CWB-CCCCCC" t0
    dbLimNone uLimNone (by decide) (by decide)
  refine ⟨by rw [hred, h1], by rw [hred, h1], ?_, ?_⟩
  · rw [hred, h3]; decide
  · rw [hred, h2]; rfl

/-- C4, amended: the balance-upgrade reconciliation requires the user to be
in limited access mode with a positive remaining balance `49 - P` (that is,
`P < 49`; `P > 0` is NOT checked here — it is enforced only at
session-creation time), and the paid amount must equal `49 - P` at cent
precision.  Every violation of a checked condition fails with the
corresponding error and performs no writes: a missing user row or
non-limited mode fails, `P ≥ 49` fails with no-balance-remaining, and an
amount off by even one cent fails with the balance-mismatch error, each
leaving the store exactly unchanged. -/
theorem C4_theorem (email : String) (sid ce : Option String) (amt : Option Int)
    (pk : Option String) (lpa : Option Int) (mt : Option String)
    (sev : Option String) (lout : LOutcome) (c : String) (now : Time) (db : DB)
    (htrim : jsTrim email = email) (hlower : jsToLower email = email)
    (hemail : email ≠ "") (hseen : eventSeen db sev = false) :
    (findUser db email = none →
      handleSuccessfulPayment (buSession email sid ce amt pk lpa mt) sev lout c now db
        = ({ success := false, error := some .upgradeOnlyForLimited }, db)) ∧
    (∀ u : User, findUser db email = some u → ¬(u.access_mode = some "limited") →
      handleSuccessfulPayment (buSession email sid ce amt pk lpa mt) sev lout c now db
        = ({ success := false, error := some .upgradeOnlyForLimited }, db)) ∧
    (∀ u : User, findUser db email = some u → u.access_mode = some "limited" →
      (49 : Rat) - u.limited_paid_amount.getD 0 ≤ 0 →
      handleSuccessfulPayment (buSession email sid ce amt pk lpa mt) sev lout c now db
        = ({ success := false, error := some .noBalanceRemaining }, db)) ∧
    (∀ u : User, findUser db email = some u → u.access_mode = some "limited" →
      ¬((49 : Rat) - u.limited_paid_amount.getD 0 ≤ 0) →
      ¬(jsRound ((((amt.getD 0 : Int) : Rat) / 100) * 100)
          = jsRound (((49 : Rat) - u.limited_paid_amount.getD 0) * 100)) →
      handleSuccessfulPayment (buSession email sid ce amt pk lpa mt) sev lout c now db
        = ({ success := false, error := some .balanceMismatch }, db)) := by
  have hnorm : jsToLower (jsTrim email) = email := by rw [htrim]; exact hlower
  refine ⟨?_, ?_, ?_, ?_⟩
  · intro hu
    exact hsp_bu_fail_nouser email sid ce amt pk lpa mt sev lout c now db hnorm hemail hseen hu
  · intro u hu hlim
    exact hsp_bu_fail_notlimited email sid ce amt pk lpa mt sev lout c now db u
      hnorm hemail hseen hu hlim
  · intro u hu hlim hbal
    exact hsp_bu_fail_nobalance email sid ce amt pk lpa mt sev lout c now db u
      hnorm hemail hseen hu hlim hbal
  · intro u hu hlim hbal hcents
    exact hsp_bu_fail_mismatch email sid ce amt pk lpa mt sev lout c now db u
      hnorm hemail hseen hu hlim hbal hcents

/-- C4, witness: a limited user with prior paid amount 14 paying $34.99
(one cent short of the exact $35.00 balance) is rejected with the
balance-mismatch error and the store is unchanged. -/
theorem C4_witness :
    handleSuccessfulPayment (buSession "b@x.com" (some "cs_b") none (some 3499) none none none)
        (some "evt_b") .ok "CWB-DDDDDD" t0 dbLim14
      = ({ success := false, error := some .balanceMismatch }, dbLim14) :=
  ( C4_theorem "b@x.com" (some "cs_b") none (some 3499) none none none (some "evt_b") .ok
      "CWB-DDDDDD" t0 dbLim14 (by decide) (by decide) (by decide) (by decide)).2.2.2
    uLim14 (by decide) (by decide) (by norm_num [uLim14]) (by norm_num [uLim14, jsRound])

/-- C5: a balance-upgrade run that passes all checks (limited mode,
positive remaining balance, exact amount at cent precision) grants exactly
`max (49 - prevCredits) 0` credits, makes the final balance
`max prevCredits 49` (hence at least 49), appends one ledger row with that
delta, and flips the user to `lifetime` access with all three partner
flags set — so a repeated grant cannot inflate the balance past the
49-credit entitlement. -/
theorem C5_theorem (email : String) (sid ce : Option String) (amt : Option Int)
    (pk : Option String) (lpa : Option Int) (mt : Option String)
    (sev : Option String) (c : String) (now : Time) (db : DB) (u : User)
    (htrim : jsTrim email = email) (hlower : jsToLower email = email)
    (hemail : email ≠ "") (hseen : eventSeen db sev = false)
    (hu : findUser db email = some u)
    (hlim : u.access_mode = some "limited")
    (hbal : ¬((49 : Rat) - u.limited_paid_amount.getD 0 ≤ 0))
    (hcents : jsRound ((((amt.getD 0 : Int) : Rat) / 100) * 100)
      = jsRound (((49 : Rat) - u.limited_paid_amount.getD 0) * 100)) :
    (handleSuccessfulPayment (buSession email sid ce amt pk lpa mt)
        sev .ok c now db).1
      = ⟨true, false, none, some (max (49 - u.total_credits) 0)⟩ ∧
    (handleSuccessfulPayment (buSession email sid ce amt pk lpa mt)
        sev .ok c now db).2.ledger = db.ledger ++
      [({ email := email, delta := max (49 - u.total_credits) 0,
          reason := "membership_purchase_basic",
          origin_site := "stripe_payment", stripe_event_id := sev,
          stripe_session_id := sid, amount_usd := some (((amt.getD 0 : Int) : Rat) / 100),
          created_at := now } : LedgerRow)] ∧
    ((findUser (handleSuccessfulPayment (buSession email sid ce amt pk lpa mt)
        sev .ok c now db).2 email).map
      (fun v => (v.total_credits, v.access_mode, v.access_talentkonnect,
                 v.access_careduel, v.access_ecoworldbuy)))
      = some (max u.total_credits 49, some "lifetime", true, true, true) ∧
    (49 : Int) ≤ max u.total_credits 49 := by
  have hnorm : jsToLower (jsTrim email) = email := by rw [htrim]; exact hlower
  rw [hsp_bu_reduce email sid ce amt pk lpa mt sev .ok c now db u
      hnorm hemail hseen hu hlim hbal hcents]
  obtain ⟨h1, h2, h3⟩ := mainGrant_bu_ok email sid (((amt.getD 0 : Int) : Rat) / 100)
    sev c now db u hlower hu
  exact ⟨h1, h2, h3, le_max_right _ _⟩

/-- C5, witness: the limited user with paid amount 14 and zero credits
paying exactly $35.00 ends with balance `max 0 49` and lifetime access. -/
theorem C5_witness :
    (handleSuccessfulPayment (buSession "b@x.com" (some "cs_b") none (some 3500) none none none)
        (some "evt_b") .ok "CWB-DDDDDD" t0 dbLim14).1
      = ⟨true, false, none, some (max (49 - uLim14.total_credits) 0)⟩ ∧
    (handleSuccessfulPayment (buSession "b@x.com" (some "cs_b") none (some 3500) none none none)
        (some "evt_b") .ok "CWB-DDDDDD" t0 dbLim14).2.ledger = dbLim14.ledger ++
      [({ email := "b@x.com", delta := max (49 - uLim14.total_credits) 0,
          reason := "membership_purchase_basic",
          origin_site := "stripe_payment", stripe_event_id := some "evt_b",
          stripe_session_id := some "cs_b",
          amount_usd := some ((((some (3500 : Int)).getD 0 : Int) : Rat) / 100),
          created_at := t0 } : LedgerRow)] ∧
    ((findUser (handleSuccessfulPayment
        (buSession "b@x.com" (some "cs_b") none (some 3500) none none none)
        (some "evt_b") .ok "CWB-DDDDDD" t0 dbLim14).2 "b@x.com").map
      (fun v => (v.total_credits, v.access_mode, v.access_talentkonnect,
                 v.access_careduel, v.access_ecoworldbuy)))
      = some (max uLim14.total_credits 49, some "lifetime", true, true, true) ∧
    (49 : Int) ≤ max uLim14.total_credits 49 :=
  C5_theorem "b@x.com" (some "cs_b") none (some 3500) none none none (some "evt_b")
    "CWB-DDDDDD" t0 dbLim14 uLim14 (by decide) (by decide) (by decide) (by decide)
    (by decide) (by decide) (by norm_num [uLim14]) (by norm_num [uLim14, jsRound])

/-! ### Claim C6: referral application -/

lemma applyRef_ok_reduce (re code : String) (now : Time) (db : DB) (referrer : User)
    (hre : jsToLower re = re) (hcode : jsTrim code = code)
    (hne : ¬(re = "")) (hcne : ¬(code = "")) (hat : jsIncludes re '@' = true)
    (hfind : findUByCode db.users code = some referrer)
    (hself : ¬(jsToLower referrer.email = re))
    (hfresh : findRef db.referrals re = none) :
    applyReferralCode ⟨some re, some code⟩ now db
      = (.ok,
         { updUser
             (updUser
               { db with referrals := db.referrals ++
                   [({ referrer_email := jsToLower referrer.email, referred_email := re,
                       referral_code := code } : Referral)] }
               re (fun u => { u with referred_by := some (jsToLower referrer.email) }))
             (jsToLower referrer.email)
             (fun u => { u with total_credits :=
               ((findUser
                   (updUser
                     { db with referrals := db.referrals ++
                         [({ referrer_email := jsToLower referrer.email, referred_email := re,
                             referral_code := code } : Referral)] }
                     re (fun u => { u with referred_by := some (jsToLower referrer.email) }))
                   (jsToLower referrer.email)).map (fun v => v.total_credits)).getD 0 + 25 })
           with ledger :=
             (updUser
               (updUser
                 { db with referrals := db.referrals ++
                     [({ referrer_email := jsToLower referrer.email, referred_email := re,
                         referral_code := code } : Referral)] }
                 re (fun u => { u with referred_by := some (jsToLower referrer.email) }))
               (jsToLower referrer.email)
               (fun u => { u with total_credits :=
                 ((findUser
                     (updUser
                       { db with referrals := db.referrals ++
                           [({ referrer_email := jsToLower referrer.email, referred_email := re,
                               referral_code := code } : Referral)] }
                       re (fun u => { u with referred_by := some (jsToLower referrer.email) }))
                     (jsToLower referrer.email)).map (fun v => v.total_credits)).getD 0 + 25 })).ledger ++
             [({ email := jsToLower referrer.email, delta := 25, reason := "referral_signup",
                 origin_site := "crowbar", created_at := now } : LedgerRow)] }) := by
  simp [applyReferralCode, hre, hcode, hne, hcne, hat, hfind, hself, hfresh]

/-- C6: applying a valid referral code of a different (normalized-email)
user for a referred email with no existing referral row records exactly one
referral row, appends exactly one `referral_signup` ledger row with delta
+25 for the referrer, and raises the referrer balance by exactly 25; any
application attempt for an already-referred email (whatever the code)
mutates nothing and does not succeed; self-referral is rejected with no
mutation. -/
theorem C6_theorem (re code : String) (now : Time) (db : DB)
    (hre : jsToLower re = re) (hcode : jsTrim code = code)
    (hne : ¬(re = "")) (hcne : ¬(code = "")) (hat : jsIncludes re '@' = true) :
    (∀ referrer : User, findUByCode db.users code = some referrer →
      jsToLower referrer.email = referrer.email →
      ¬(referrer.email = re) →
      findRef db.referrals re = none →
      (applyReferralCode ⟨some re, some code⟩ now db).1 = .ok ∧
      (applyReferralCode ⟨some re, some code⟩ now db).2.referrals
        = db.referrals ++ [({ referrer_email := referrer.email, referred_email := re,
                              referral_code := code } : Referral)] ∧
      (applyReferralCode ⟨some re, some code⟩ now db).2.ledger
        = db.ledger ++ [({ email := referrer.email, delta := 25,
                           reason := "referral_signup", origin_site := "crowbar",
                           created_at := now } : LedgerRow)] ∧
      ((findUser (applyReferralCode ⟨some re, some code⟩ now db).2 referrer.email).map
         (fun u => u.total_credits))
        = ((findUser db referrer.email).map (fun u => u.total_credits + 25))) ∧
    (∀ req : ApplyRefReq,
      ¬(findRef db.referrals (jsToLower (req.referred_email.getD "")) = none) →
      (applyReferralCode req now db).2 = db ∧ (applyReferralCode req now db).1 ≠ .ok) ∧
    (∀ referrer : User, findUByCode db.users code = some referrer →
      jsToLower referrer.email = re →
      applyReferralCode ⟨some re, some code⟩ now db = (.selfReferral, db)) := by
  refine ⟨?_, ?_, ?_⟩
  · intro referrer hfind hnorm hneq hfresh
    have hself : ¬(jsToLower referrer.email = re) := by rw [hnorm]; exact hneq
    have hred := applyRef_ok_reduce re code now db referrer hre hcode hne hcne hat hfind hself hfresh
    have hne2 : referrer.email ≠ re := hneq
    refine ⟨by rw [hred], ?_, ?_, ?_⟩
    · rw [hred, hnorm]; rfl
    · rw [hred, hnorm]; rfl
    · rw [hred, hnorm]
      show ((findUser (updUser _ referrer.email _) referrer.email).map _) = _
      rw [findUser_updUser_self]
      · rw [findUser_updUser_ne]
        · cases h : findUser db referrer.email with
          | none => simp [findUser, findU] at h ⊢; simp [h]
          | some u0 =>
            rw [show findUser { db with referrals := db.referrals ++
                [({ referrer_email := referrer.email, referred_email := re,
                    referral_code := code } : Referral)] } referrer.email
              = findUser db referrer.email from rfl, h]
            simp
        · intro u; rfl
        · exact hne2
      · intro u; rfl
  · intro req hex
    simp only [applyReferralCode]
    split
    · exact ⟨rfl, by simp⟩
    · split
      · exact ⟨rfl, by simp⟩
      · split
        · exact ⟨rfl, by simp⟩
        · split
          · exact ⟨rfl, by simp⟩
          · split
            · exact ⟨rfl, by simp⟩
            · rename_i hnone
              exact absurd hnone hex
  · intro referrer hfind hself
    simp [applyReferralCode, hre, hcode, hne, hcne, hat, hfind, hself]

/-- A referrer holding code `CWB-XYZ123` with 5 credits, next to a fresh
referred user. -/
def uReferrer : User :=
  { email := "r@x.com", total_credits := 5, referral_code := some "CWB-XYZ123" }

/-- Store for the referral witness: the referrer and the referred user. -/
def dbRef : DB := ⟨[uReferrer, { email := "n@x.com" }], [], [], []⟩

/-- C6, witness: applying `CWB-XYZ123` for `n@x.com` records the referral,
appends one +25 `referral_signup` row and raises the referrer from 5 to
30; with the referral row recorded, a second attempt mutates nothing; and
the referrer applying their own code is rejected. -/
theorem C6_witness :
    ((applyReferralCode ⟨some "n@x.com", some "CWB-XYZ123"⟩ t0 dbRef).1 = .ok ∧
     (applyReferralCode ⟨some "n@x.com", some "CWB-XYZ123"⟩ t0 dbRef).2.referrals
       = dbRef.referrals ++ [({ referrer_email := "r@x.com", referred_email := "n@x.com",
                                referral_code := "CWB-XYZ123" } : Referral)] ∧
     (applyReferralCode ⟨some "n@x.com", some "CWB-XYZ123"⟩ t0 dbRef).2.ledger
       = dbRef.ledger ++ [({ email := "r@x.com", delta := 25, reason := "referral_signup",
                             origin_site := "crowbar", created_at := t0 } : LedgerRow)] ∧
     ((findUser (applyReferralCode ⟨some "n@x.com", some "CWB-XYZ123"⟩ t0 dbRef).2
         "r@x.com").map (fun u => u.total_credits))
       = ((findUser dbRef "r@x.com").map (fun u => u.total_credits + 25))) ∧
    (∀ req : ApplyRefReq,
      ¬(findRef dbRef.referrals (jsToLower (req.referred_email.getD "")) = none) →
      (applyReferralCode req t0 dbRef).2 = dbRef ∧ (applyReferralCode req t0 dbRef).1 ≠ .ok) ∧
    applyReferralCode ⟨some "r@x.com", some "CWB-XYZ123"⟩ t0 dbRef = (.selfReferral, dbRef) := by
  have h := C6_theorem "n@x.com" "CWB-XYZ123" t0 dbRef (by decide) (by decide)
    (by decide) (by decide) (by decide)
  have h2 := C6_theorem "r@x.com" "CWB-XYZ123" t0 dbRef (by decide) (by decide)
    (by decide) (by decide) (by decide)
  exact ⟨h.1 uReferrer (by decide) (by decide) (by decide) (by decide),
         h.2.1,
         h2.2.2 uReferrer (by decide) (by decide)⟩

/-! ### Claim C7: auto-upgrade rule -/

lemma autoUpgrade_noop (email : String) (now : Time) (db : DB) (u : User)
    (hu : findUser db email = some u)
    (hfa : u.full_access = true) (hst : u.auto_upgraded_at.isSome = true) :
    autoUpgradeIfEligible email now db = db := by
  simp [autoUpgradeIfEligible, hu, hfa, hst]

/-- C7, counterexample: a user with `full_access = true` but no
`auto_upgraded_at` and zero effective spend is NOT repaired — the run
returns the store unchanged and the timestamp stays null, because the
repair update is only reachable when effective spend is at least 99.  The
claim states the timestamp repair unconditionally. -/
theorem C7_counterexample :
    autoUpgradeIfEligible "u@x.com"
        t0 ⟨[{ email := "u@x.com", full_access := true }], [], [], []⟩
      = ⟨[{ email := "u@x.com", full_access := true }], [], [], []⟩ ∧
    ((findUser (autoUpgradeIfEligible "u@x.com"
        t0 ⟨[{ email := "u@x.com", full_access := true }], [], [], []⟩) "u@x.com").bind
      (fun u => u.auto_upgraded_at)) = none := by
  decide

/-- C7, amended: with effective spend computed as the max of the rolling
30-day ledger sum and all-time `total_spent`, a user without an
`auto_upgraded_at` stamp whose effective spend is at least 99 receives
exactly one +49 `auto_upgrade_bonus` ledger row and balance bump with
`full_access` set and the timestamp stamped (when no prior bonus row
exists), and running the check again afterwards changes nothing; a user
with a prior bonus row only has `full_access`/timestamp repaired, without
a duplicate bonus — but the repair happens only when effective spend is at
least 99 (below the threshold the run is a no-op, contrary to the original
claim). -/
theorem C7_theorem :
    (∀ (email : String) (now now2 : Time) (db : DB) (u : User),
      findUser db email = some u → u.auto_upgraded_at = none →
      (99 : Rat) ≤ effectiveSpend db email now →
      db.ledger.any (fun r => r.email == email && r.reason == "auto_upgrade_bonus") = false →
      (autoUpgradeIfEligible email now db).ledger = db.ledger ++
        [({ email := email, delta := 49, reason := "auto_upgrade_bonus",
            origin_site := "bridge_auto_upgrade", amount_usd := none,
            created_at := now } : LedgerRow)] ∧
      ((findUser (autoUpgradeIfEligible email now db) email).map
        (fun v => (v.total_credits, v.full_access, v.auto_upgraded_at)))
        = some (u.total_credits + 49, true, some now) ∧
      autoUpgradeIfEligible email now2 (autoUpgradeIfEligible email now db)
        = autoUpgradeIfEligible email now db) ∧
    (∀ (email : String) (now : Time) (db : DB) (u : User),
      findUser db email = some u → u.auto_upgraded_at = none →
      (99 : Rat) ≤ effectiveSpend db email now →
      db.ledger.any (fun r => r.email == email && r.reason == "auto_upgrade_bonus") = true →
      (autoUpgradeIfEligible email now db).ledger = db.ledger ∧
      ((findUser (autoUpgradeIfEligible email now db) email).map
        (fun v => (v.total_credits, v.full_access, v.auto_upgraded_at)))
        = some (u.total_credits, true, some now)) := by
  constructor
  · intro email now now2 db u hu hstamp heff hprior
    have hnl : ¬(effectiveSpend db email now < 99) := not_lt.mpr heff
    have hred : autoUpgradeIfEligible email now db
        = updUser (bumpUserCredits
            { db with ledger := db.ledger ++
              [({ email := email, delta := 49, reason := "auto_upgrade_bonus",
                  origin_site := "bridge_auto_upgrade", amount_usd := none,
                  created_at := now } : LedgerRow)] } email 49 now).2 email
            (fun v => { v with full_access := true, auto_upgraded_at := some now,
                               updated_at := some now }) := by
      simp [autoUpgradeIfEligible, hu, hstamp, hnl, hprior]
    have hfind2 : findUser (autoUpgradeIfEligible email now db) email
        = some { u with total_credits := u.total_credits + 49,
                        full_access := true, auto_upgraded_at := some now,
                        updated_at := some now } := by
      rw [hred]
      rw [findUser_updUser_self]
      · rw [bumpUserCredits_find_self]
        rw [show findUser { db with ledger := db.ledger ++
              [({ email := email, delta := 49, reason := "auto_upgrade_bonus",
                  origin_site := "bridge_auto_upgrade", amount_usd := none,
                  created_at := now } : LedgerRow)] } email = findUser db email from rfl]
        rw [hu]
        rfl
      · intro v; rfl
    refine ⟨?_, ?_, ?_⟩
    · rw [hred, updUser_ledger, bumpUserCredits_ledger]
    · rw [hfind2]; rfl
    · exact autoUpgrade_noop email now2 _ _ hfind2 rfl rfl
  · intro email now db u hu hstamp heff hprior
    have hnl : ¬(effectiveSpend db email now < 99) := not_lt.mpr heff
    have hred : autoUpgradeIfEligible email now db
        = updUser db email
            (fun v => { v with full_access := true, auto_upgraded_at := some now,
                               updated_at := some now }) := by
      simp [autoUpgradeIfEligible, hu, hstamp, hnl, hprior]
    constructor
    · rw [hred, updUser_ledger]
    · rw [hred]
      rw [findUser_updUser_self]
      · rw [hu]
        rfl
      · intro v; rfl

/-- A ledger row recording a $99 payment one day before `t0`. -/
def rowSpend : LedgerRow :=
  { email := "v@x.com", delta := 0, reason := "payment",
    origin_site := "stripe_payment", amount_usd := some 99, created_at := t0 - dayMs }

/-- Store for the auto-upgrade witness: a fresh user with one $99 ledger
row inside the rolling window. -/
def dbSpend : DB := ⟨[{ email := "v@x.com" }], [rowSpend], [], []⟩

/-- C7, witness: the user with $99 of ledger spend in the window and no
prior bonus receives exactly one +49 grant with `full_access` and the
stamp set, and a second run changes nothing. -/
theorem C7_witness :
    (autoUpgradeIfEligible "v@x.com" t0 dbSpend).ledger = dbSpend.ledger ++
      [({ email := "v@x.com", delta := 49, reason := "auto_upgrade_bonus",
          origin_site := "bridge_auto_upgrade", amount_usd := none,
          created_at := t0 } : LedgerRow)] ∧
    ((findUser (autoUpgradeIfEligible "v@x.com" t0 dbSpend) "v@x.com").map
      (fun v => (v.total_credits, v.full_access, v.auto_upgraded_at)))
      = some ((0 : Int) + 49, true, some t0) ∧
    autoUpgradeIfEligible "v@x.com" (t0 + 1) (autoUpgradeIfEligible "v@x.com" t0 dbSpend)
      = autoUpgradeIfEligible "v@x.com" t0 dbSpend :=
  C7_theorem.1 "v@x.com" t0 (t0 + 1) dbSpend { email := "v@x.com" } (by decide) (by decide)
    (by norm_num [effectiveSpend, rolling30, findUser, findU, dbSpend, rowSpend, dayMs, t0])
    (by decide)

/-! ### Claims C8 - C10: gate flow and partner rewards -/

lemma bumpUserCredits_fst (db : DB) (e : String) (d : Int) (now : Time) :
    (bumpUserCredits db e d now).1
      = ((findUser db e).map (fun u => u.total_credits)).getD 0 + d := by
  simp only [bumpUserCredits]
  rw [findUser_ensure_self]
  cases h : findUser db e <;> simp [h]

lemma bumpUserCredits_find_self_tc (db : DB) (e : String) (d : Int) (now : Time) :
    ((findUser (bumpUserCredits db e d now).2 e).map (fun u => u.total_credits))
      = some (((findUser db e).map (fun u => u.total_credits)).getD 0 + d) := by
  rw [bumpUserCredits_find_self]
  cases h : findUser db e <;> simp [h]

lemma findUser_set_tables (db : DB) (l : List LedgerRow) (cr : List CreditRow) (e : String) :
    findUser { users := db.users, ledger := l, credits := cr, referrals := db.referrals } e
      = findUser db e := rfl

lemma startGate_pass (email o : String) (la : Option String) (t : Time) (qerr : Bool)
    (db : DB) (url : String)
    (hfe : jsFalsyStr (some email) = false) (hfo : jsFalsyStr (some o) = false)
    (hpm : PARTNER_MAP o = some url) (hpass : hasAccessPass db email = true) :
    startGate (some email) (some o) la t qerr db
      = ({ success := true, need_payment := some false, redirect_url := some url },
         (awardPartnerOncePerDay email o t qerr db).2) := by
  simp [startGate, hfe, hfo, hpm, hpass]

lemma sameUtcDay_bounds (t1 t2 : Nat) (h : t1 / dayMs = t2 / dayMs) :
    startOfUtcDay t2 ≤ t1 ∧ t1 ≤ endOfUtcDay t2 := by
  simp only [startOfUtcDay, endOfUtcDay, dayMs] at h ⊢
  show t2 / 86400000 * 86400000 ≤ t1 ∧ t1 ≤ t2 / 86400000 * 86400000 + (86400000 - 1)
  omega

/-- C8: for a pass-holding user and a valid partner origin with no reward
yet today, two gate-start calls in the same UTC day award the partner
credit exactly once: the first call succeeds, appends exactly one
`action.rewarded` ledger row for that partner and bumps the balance by the
partner credit; the second call returns the identical response (same
redirect URL) while changing nothing, and its award step reports
`awarded = false` with zero credits. -/
theorem C8_theorem (email o : String) (la la2 : Option String) (t1 t2 : Time) (db : DB)
    (hemail : ¬(email = ""))
    (ho : o = "talentkonnect" ∨ o = "careduel" ∨ o = "ecoworldbuy")
    (hpass : hasAccessPass db email = true)
    (hfresh : partnerRewardAlreadyGivenToday email o t1 false db = false)
    (hday : t1 / dayMs = t2 / dayMs) :
    (startGate (some email) (some o) la t1 false db).1
      = { success := true, need_payment := some false,
          redirect_url := PARTNER_MAP o } ∧
    (startGate (some email) (some o) la t1 false db).2.ledger = db.ledger ++
      [({ email := email, delta := (CREDIT_MAP o).getD 0, reason := "action.rewarded",
          origin_site := o, created_at := t1 } : LedgerRow)] ∧
    ((findUser (startGate (some email) (some o) la t1 false db).2 email).map
      (fun u => u.total_credits))
      = some (((findUser db email).map (fun u => u.total_credits)).getD 0
              + (CREDIT_MAP o).getD 0) ∧
    (startGate (some email) (some o) la2 t2 false
        (startGate (some email) (some o) la t1 false db).2).1
      = (startGate (some email) (some o) la t1 false db).1 ∧
    (startGate (some email) (some o) la2 t2 false
        (startGate (some email) (some o) la t1 false db).2).2
      = (startGate (some email) (some o) la t1 false db).2 ∧
    (awardPartnerOncePerDay email o t2 false
        (startGate (some email) (some o) la t1 false db).2).1
      = ⟨false, 0⟩ := by
  have hcred : ¬((CREDIT_MAP o).getD 0 ≤ 0) := by
    rcases ho with rfl | rfl | rfl <;> decide
  have honempty : ¬(o = "") := by
    rcases ho with rfl | rfl | rfl <;> decide
  have hfe : jsFalsyStr (some email) = false := by simp [jsFalsyStr, hemail]
  have hfo : jsFalsyStr (some o) = false := by simp [jsFalsyStr, honempty]
  obtain ⟨hb1, hb2⟩ := sameUtcDay_bounds t1 t2 hday
  cases hpm : PARTNER_MAP o with
  | none => rcases ho with rfl | rfl | rfl <;> simp [PARTNER_MAP] at hpm
  | some url =>
    have haw1 : awardPartnerOncePerDay email o t1 false db
        = (⟨true, (CREDIT_MAP o).getD 0⟩,
           (bumpUserCredits
             { db with
                 credits := db.credits ++
                   [({ email := email, amount := (CREDIT_MAP o).getD 0, origin_site := o,
                       eligible_global_race := false, legal_accept := true,
                       created_at := t1 } : CreditRow)],
                 ledger := db.ledger ++
                   [({ email := email, delta := (CREDIT_MAP o).getD 0,
                       reason := "action.rewarded", origin_site := o,
                       created_at := t1 } : LedgerRow)] }
             email ((CREDIT_MAP o).getD 0) t1).2) := by
      simp [awardPartnerOncePerDay, hcred, hfresh]
    have hg1 : startGate (some email) (some o) la t1 false db
        = ({ success := true, need_payment := some false, redirect_url := some url },
           (bumpUserCredits
             { db with
                 credits := db.credits ++
                   [({ email := email, amount := (CREDIT_MAP o).getD 0, origin_site := o,
                       eligible_global_race := false, legal_accept := true,
                       created_at := t1 } : CreditRow)],
                 ledger := db.ledger ++
                   [({ email := email, delta := (CREDIT_MAP o).getD 0,
                       reason := "action.rewarded", origin_site := o,
                       created_at := t1 } : LedgerRow)] }
             email ((CREDIT_MAP o).getD 0) t1).2) := by
      rw [startGate_pass email o la t1 false db url hfe hfo hpm hpass, haw1]
    have hled1 : (startGate (some email) (some o) la t1 false db).2.ledger = db.ledger ++
        [({ email := email, delta := (CREDIT_MAP o).getD 0, reason := "action.rewarded",
            origin_site := o, created_at := t1 } : LedgerRow)] := by
      rw [hg1]
      show (bumpUserCredits _ email _ t1).2.ledger = _
      rw [bumpUserCredits_ledger]
    have hcrtbl1 : (startGate (some email) (some o) la t1 false db).2.credits = db.credits ++
        [({ email := email, amount := (CREDIT_MAP o).getD 0, origin_site := o,
            eligible_global_race := false, legal_accept := true,
            created_at := t1 } : CreditRow)] := by
      rw [hg1]
      show (bumpUserCredits _ email _ t1).2.credits = _
      rw [bumpUserCredits_credits]
    have hpass1 : hasAccessPass (startGate (some email) (some o) la t1 false db).2 email
        = true := by
      simp only [hasAccessPass] at hpass ⊢
      rw [hcrtbl1]
      simp [List.any_append, hpass]
    have hgiven : partnerRewardAlreadyGivenToday email o t2 false
        (startGate (some email) (some o) la t1 false db).2 = true := by
      simp only [partnerRewardAlreadyGivenToday]
      rw [if_neg (by decide)]
      rw [hled1]
      simp [List.any_append, hb1, hb2]
    have haw2 : awardPartnerOncePerDay email o t2 false
        (startGate (some email) (some o) la t1 false db).2
        = (⟨false, 0⟩, (startGate (some email) (some o) la t1 false db).2) := by
      simp [awardPartnerOncePerDay, hcred, hgiven]
    have hg2 : startGate (some email) (some o) la2 t2 false
        (startGate (some email) (some o) la t1 false db).2
        = ({ success := true, need_payment := some false, redirect_url := some url },
           (startGate (some email) (some o) la t1 false db).2) := by
      rw [startGate_pass email o la2 t2 false _ url hfe hfo hpm hpass1, haw2]
    refine ⟨by simp [hg1, hpm], hled1, ?_, by rw [hg2]; simp [hg1], by simp [hg2], by simp [haw2]⟩
    rw [hg1]
    show ((findUser (bumpUserCredits _ email _ t1).2 email).map _) = _
    rw [bumpUserCredits_find_self_tc]
    rfl

/-- Store for the gate witness: a user holding a legally-accepted access
pass purchased five days before `t0`. -/
def dbGate : DB :=
  ⟨[{ email := "g@x.com", total_credits := 10 }], [],
   [{ email := "g@x.com", amount := 49, origin_site := "access_pass",
      eligible_global_race := false, legal_accept := true, created_at := t0 - 5 * dayMs }], []⟩

/-- C8, witness: the pass holder calling gate-start for `careduel` twice
within the same UTC day (one hour apart) is awarded the 3-credit partner
reward exactly once and receives the same redirect both times. -/
theorem C8_witness :
    (startGate (some "g@x.com") (some "careduel") none t0 false dbGate).1
      = { success := true, need_payment := some false,
          redirect_url := PARTNER_MAP "careduel" } ∧
    (startGate (some "g@x.com") (some "careduel") none t0 false dbGate).2.ledger
      = dbGate.ledger ++
      [({ email := "g@x.com", delta := (CREDIT_MAP "careduel").getD 0,
          reason := "action.rewarded", origin_site := "careduel",
          created_at := t0 } : LedgerRow)] ∧
    ((findUser (startGate (some "g@x.com") (some "careduel") none t0 false dbGate).2
        "g@x.com").map (fun u => u.total_credits))
      = some (((findUser dbGate "g@x.com").map (fun u => u.total_credits)).getD 0
              + (CREDIT_MAP "careduel").getD 0) ∧
    (startGate (some "g@x.com") (some "careduel") none (t0 + 3600000) false
        (startGate (some "g@x.com") (some "careduel") none t0 false dbGate).2).1
      = (startGate (some "g@x.com") (some "careduel") none t0 false dbGate).1 ∧
    (startGate (some "g@x.com") (some "careduel") none (t0 + 3600000) false
        (startGate (some "g@x.com") (some "careduel") none t0 false dbGate).2).2
      = (startGate (some "g@x.com") (some "careduel") none t0 false dbGate).2 ∧
    (awardPartnerOncePerDay "g@x.com" "careduel" (t0 + 3600000) false
        (startGate (some "g@x.com") (some "careduel") none t0 false dbGate).2).1
      = ⟨false, 0⟩ :=
  C8_theorem "g@x.com" "careduel" none none t0 (t0 + 3600000) dbGate
    (by decide) (Or.inr (Or.inl rfl)) (by decide) (by decide) (by decide)

/-- C9: the earn endpoint accepts negative amounts.  For a request whose
amount string parses to a negative integer `d`, validation passes, one
`api.earn` ledger row with delta `d` is appended, and `total_credits`
moves by `d` (that is, decreases by its magnitude) — the earn operation is
not restricted to positive grants. -/
theorem C9_theorem (e a o : String) (d : Int) (now : Time) (db : DB)
    (he : ¬(e = "")) (ho : ¬(o = "")) (hp : parseIntJs a = some d) (_hneg : d < 0) :
    (earnCredits ⟨some e, some a, some o⟩ now db).1
      = .ok d (((findUser db e).map (fun u => u.total_credits)).getD 0 + d) ∧
    (earnCredits ⟨some e, some a, some o⟩ now db).2.ledger = db.ledger ++
      [({ email := e, delta := d, reason := "api.earn", origin_site := o,
          created_at := now } : LedgerRow)] ∧
    ((findUser (earnCredits ⟨some e, some a, some o⟩ now db).2 e).map
      (fun u => u.total_credits))
      = some (((findUser db e).map (fun u => u.total_credits)).getD 0 + d) := by
  refine ⟨?_, ?_, ?_⟩
  · simp [earnCredits, jsFalsyStr, he, ho, hp, bumpUserCredits_fst, findUser_set_tables]
  · simp [earnCredits, jsFalsyStr, he, ho, hp, bumpUserCredits_ledger]
  · simp [earnCredits, jsFalsyStr, he, ho, hp, bumpUserCredits_find_self_tc,
      findUser_set_tables]

/-- Store for the earn witness: one user with 10 credits. -/
def dbEarn : DB := ⟨[{ email := "e@x.com", total_credits := 10 }], [], [], []⟩

/-- C9, witness: posting amount `"-5"` passes validation, appends an
`api.earn` row with delta -5 and moves the balance from 10 to 5. -/
theorem C9_witness :
    (earnCredits ⟨some "e@x.com", some "-5", some "site"⟩ t0 dbEarn).1
      = .ok (-5) (((findUser dbEarn "e@x.com").map (fun u => u.total_credits)).getD 0 + (-5)) ∧
    (earnCredits ⟨some "e@x.com", some "-5", some "site"⟩ t0 dbEarn).2.ledger
      = dbEarn.ledger ++
      [({ email := "e@x.com", delta := -5, reason := "api.earn", origin_site := "site",
          created_at := t0 } : LedgerRow)] ∧
    ((findUser (earnCredits ⟨some "e@x.com", some "-5", some "site"⟩ t0 dbEarn).2
        "e@x.com").map (fun u => u.total_credits))
      = some (((findUser dbEarn "e@x.com").map (fun u => u.total_credits)).getD 0 + (-5)) :=
  C9_theorem "e@x.com" "-5" "site" (-5) t0 dbEarn (by decide) (by decide) (by decide) (by decide)

/-- C10: the once-per-day partner reward guard is fail-closed.  Whatever
the email, origin, time and store, when the same-day reward query errors,
`partnerRewardAlreadyGivenToday` reports `true`, and
`awardPartnerOncePerDay` under that failing query awards nothing and
leaves the store untouched — a storage read failure can suppress a reward
but can never cause a grant. -/
theorem C10_theorem (email origin : String) (now : Time) (db : DB) :
    partnerRewardAlreadyGivenToday email origin now true db = true ∧
    awardPartnerOncePerDay email origin now true db = (⟨false, 0⟩, db) := by
  constructor
  · rfl
  · unfold awardPartnerOncePerDay
    by_cases hc : (CREDIT_MAP origin).getD 0 ≤ 0
    · simp [hc]
    · simp [hc, partnerRewardAlreadyGivenToday]

end Crowbar